import Mathlib

/-!
# Printrhub: the MK20 application core (`mk20/src/framework/core/Application.cpp`)

A shallow embedding of `ApplicationClass`: its members become the fields of a
record, every member function becomes a pure function on that record, and
every call the class makes on a collaborator (CommStack, Display, SD, the
scene and job objects, the GPIO pins) is appended to an event log kept next
to the members.  Collaborator code is not part of the class; it is never run
by the embedding, only recorded.  The one exception is `_esp->process()`:
CommStack hands the inbound frames it has completed to its delegate, the
application, so a tick carries the frames that `process()` passes to
`runTask` during that pass of `loop`.  Calls that scenes and jobs make back
into the application (`pushScene`, `pushJob`) and frames looked at on their
own are separate steps of a run (`Call`).

Declarations used by `Application.cpp` but living in other headers
(`FIRMWARE_BUILDNR`, the error code enumerations, the virtual methods of the
scene and job classes, the JSON codec, the default argument of `pushScene`)
are the fields of `Decls` and are parameters of the embedding.
-/

namespace Printrhub

/-! ## Data model -/

/-- Task identifiers referred to by `Application.cpp` and the specification;
`Other` stands for the remaining values of the extensible enumeration. -/
inductive TaskID where
  | SaveProjectWithID
  | DownloadError
  | FirmwareUpdateError
  | GetTimeAndDate
  | StartFirmwareUpdate
  | Ping
  | ShowFirmwareUpdateNotification
  | DebugLog
  | RestartESP
  | FirmwareUpdateComplete
  | FileOpenForWrite
  | GetJobWithID
  | GetProjectItemWithID
  | Other (n : Nat)
  deriving DecidableEq, Repr

/-- Direction marker of a frame (`header.commType`). -/
inductive CommType where
  | Request
  | ResponseSuccess
  | ResponseError
  deriving DecidableEq, Repr

/-- The fields of `CommHeader` that `Application.cpp` reads. -/
structure CommHeader where
  currentTask : TaskID
  commType : CommType
  contentLength : Nat
  deriving DecidableEq, Repr

/-- Accessor `header.getCurrentTask()`. -/
def CommHeader.getCurrentTask (header : CommHeader) : TaskID := header.currentTask

/-- Enumerators of `DownloadError` compared against in `runTask`. -/
inductive DownloadError where
  | Timeout
  | InternalServerError
  | FileNotFound
  | Forbidden
  | UnknownError
  | ConnectionFailed
  | PrepareDownloadedFileFailed
  | RemoveOldFilesFailed
  deriving DecidableEq, Repr

/-- Scene objects: the classes `runTask` constructs, with their constructor
arguments (`none` is an omitted defaulted argument), and `Other` for an
instance of any other scene class. -/
inductive SceneController where
  | DownloadFileController (url localFilePath : String)
  | ErrorScene (message : String) (arg : Option Bool)
  | ProjectsScene
  | ConfirmFirmwareUpdateScene
  | Other (id : Nat)
  deriving DecidableEq, Repr

/-- Job objects: `ReceiveSDCardFile` as constructed by `runTask`, and `Other`
for an instance of any other job class. -/
inductive BackgroundJob where
  | ReceiveSDCardFile (localFilePath : String) (fileSize : Nat)
  | Other (id : Nat)
  deriving DecidableEq, Repr

/-- Touch point (`TS_Point`), coordinates only. -/
structure TS_Point where
  x : Int
  y : Int
  deriving DecidableEq, Repr

/-- GPIO pins written by the class. -/
inductive Pin where
  | ESP_RESET
  | COMMSTACK_DATAFLOW_PIN
  deriving DecidableEq, Repr

/-- Pin levels and modes. -/
inductive Level where
  | LOW
  | HIGH
  | INPUT
  | OUTPUT
  deriving DecidableEq, Repr

/-- One call made by the class on a collaborator. -/
inductive Ev where
  | requestTask (task : TaskID) (size : Nat) (payload : List Nat)
  | espProcess
  | printrLoop
  | animatorUpdate
  | statusLedLoop
  | jobOnWillEnd (job : BackgroundJob)
  | jobDelete (job : BackgroundJob)
  | jobOnWillStart (job : BackgroundJob)
  | jobLoop (job : BackgroundJob)
  | jobRunTask (job : BackgroundJob) (header : CommHeader)
  | displayFadeOut
  | displayClear
  | displayFadeIn
  | displayLayoutIfNeeded
  | displayDispatch
  | displaySetCursor (x y : Nat)
  | displayPrintln (text : String)
  | displayPrintData (bytes : List Nat)
  | sceneDelete (scene : SceneController)
  | sceneSetupDisplay (scene : SceneController)
  | sceneOnWillAppear (scene : SceneController)
  | sceneTouchMoved (scene : SceneController) (point last : TS_Point)
  | sceneTouchDown (scene : SceneController) (point : TS_Point)
  | sceneTouchUp (scene : SceneController) (last : TS_Point)
  | sceneLoop (scene : SceneController)
  | sceneRunTask (scene : SceneController) (header : CommHeader)
  | pinMode (pin : Pin) (mode : Level)
  | digitalWrite (pin : Pin) (level : Level)
  | delay (ms : Nat)
  | sdRemove (path : String)
  deriving DecidableEq, Repr

/-- The out-parameters of `runTask` (`responseData`, `responseDataSize`,
`sendResponse`, `success`): their values on entry are the caller's, their
values on return are what the caller reads. -/
structure Out where
  responseData : Nat → Nat
  responseDataSize : Nat
  sendResponse : Bool
  success : Bool

/-- What the JSON codec hands back for a parsed object: `root.success()` and
the field lookups used by `runTask`. -/
structure JsonObject where
  success : Bool
  str : String → String
  num : String → Nat

/-- Declarations that `Application.cpp` uses and that live in other files. -/
structure Decls where
  /-- The `FIRMWARE_BUILDNR` constant. -/
  FIRMWARE_BUILDNR : Int
  /-- The default value of `cancelModal` in the declaration of `pushScene`. -/
  cancelModalDefault : Bool
  /-- Virtual `SceneController::isModal`. -/
  isModal : SceneController → Bool
  /-- Virtual `SceneController::handlesTask`. -/
  sceneHandlesTask : SceneController → TaskID → Bool
  /-- Virtual `SceneController::runTask`: out-parameters and return value. -/
  sceneRunTask : SceneController → CommHeader → (Nat → Nat) → Nat → Out → Out × Bool
  /-- Virtual `BackgroundJob::handlesTask`. -/
  jobHandlesTask : BackgroundJob → TaskID → Bool
  /-- Virtual `BackgroundJob::runTask`: out-parameters and return value. -/
  jobRunTask : BackgroundJob → CommHeader → (Nat → Nat) → Nat → Out → Out × Bool
  /-- The codec call `jsonBuffer.parseObject(String((const char*) data))`. -/
  parseObject : (Nat → Nat) → JsonObject
  /-- The one-byte wire code of each `DownloadError` enumerator. -/
  downloadErrorCode : DownloadError → Nat
  /-- The one-byte wire code of `FirmwareUpdateError::UnknownError`. -/
  firmwareUnknownErrorCode : Nat

/-- The members of `ApplicationClass` that the modelled functions use,
together with the two pieces of the environment they act on: the set of paths
present on the SD card and the log of collaborator calls (oldest first).
The float `_deltaTime` and `_lastTime` are not modelled. -/
structure ApplicationClass where
  _firstSceneLoop : Bool
  _touched : Bool
  _lastTouchPoint : TS_Point
  _nextScene : Option SceneController
  _currentScene : Option SceneController
  _espOK : Bool
  _lastESPPing : Nat
  _currentJob : Option BackgroundJob
  _nextJob : Option BackgroundJob
  sdFiles : List String
  trace : List Ev

/-- The constructor `ApplicationClass::ApplicationClass()`.  `_nextJob` and
`_lastTouchPoint` are not assigned there; `Application` is a global object,
so they start zero-initialised. -/
def ApplicationClass.new (sdFiles : List String) : ApplicationClass :=
  { _firstSceneLoop := true
    _touched := false
    _lastTouchPoint := { x := 0, y := 0 }
    _nextScene := none
    _currentScene := none
    _espOK := false
    _lastESPPing := 0
    _currentJob := none
    _nextJob := none
    sdFiles := sdFiles
    trace := [] }

/-- Append one collaborator call to the log. -/
def ApplicationClass.emit (s : ApplicationClass) (e : Ev) : ApplicationClass :=
  { s with trace := s.trace ++ [e] }

/-- One inbound frame as CommStack hands it to `runTask`: header, payload
buffer and size, and the out-parameters with the values CommStack gives them
before the call. -/
structure Frame where
  header : CommHeader
  data : Nat → Nat
  dataSize : Nat
  out : Out

/-- What the environment supplies during one call of `loop`: the two
`millis()` readings of the ping block, the inbound frames that
`_esp->process()` completes and hands over during this pass (in arrival
order), `Touch.touched()` with `Touch.getPoint()`, and
`Display.willRefresh()`. -/
structure Tick where
  millisCheck : Nat
  millisStamp : Nat
  inbound : List Frame
  touch : Option TS_Point
  willRefresh : Bool

/-- Subtraction of `unsigned long` values (32 bit on the MK20). -/
def subUL (a b : Nat) : Nat := (a + (4294967296 - b % 4294967296)) % 4294967296

/-- The size `sizeof(int)`. -/
def sizeofInt : Nat := 4

/-- The four bytes of an `int`, least significant first. -/
def intBytes (v : Int) : List Nat :=
  let u := (v % 4294967296).toNat
  [u % 256, u / 256 % 256, u / 65536 % 256, u / 16777216 % 256]

/-- The call `memcpy(dst, src, n)` for a source given as a byte list. -/
def memcpy (dst : Nat → Nat) (src : List Nat) : Nat → Nat :=
  fun i => if i < src.length then src.getD i 0 else dst i

/-! ## Member functions -/

/-- `ApplicationClass::pingESP` (lines 104-109). -/
def pingESP (d : Decls) (s : ApplicationClass) : ApplicationClass :=
  s.emit (.requestTask .Ping sizeofInt (intBytes d.FIRMWARE_BUILDNR))

/-- `ApplicationClass::resetESP` (lines 111-118). -/
def resetESP (s : ApplicationClass) : ApplicationClass :=
  ((((s.emit (.pinMode .ESP_RESET .OUTPUT)).emit (.digitalWrite .ESP_RESET .LOW)).emit
    (.delay 100)).emit (.digitalWrite .ESP_RESET .HIGH)).emit (.pinMode .ESP_RESET .INPUT)

/-- `ApplicationClass::handleTouches` (lines 42-88). -/
def handleTouches (s : ApplicationClass) (env : Tick) : ApplicationClass :=
  match s._currentScene with
  | none => s
  | some sceneController =>
    match env.touch with
    | some raw =>
      let point : TS_Point := { x := raw.y, y := 240 - raw.x }
      let s1 :=
        if s._touched then
          if point.x ≠ s._lastTouchPoint.x ∨ point.y ≠ s._lastTouchPoint.y then
            s.emit (.sceneTouchMoved sceneController point s._lastTouchPoint)
          else s
        else
          { s.emit (.sceneTouchDown sceneController point) with _touched := true }
      { s1 with _lastTouchPoint := point }
    | none =>
      let s1 := if s._touched then s.emit (.sceneTouchUp sceneController s._lastTouchPoint) else s
      { s1 with _touched := false }

/-- `ApplicationClass::pushScene` (lines 268-279). -/
def pushScene (d : Decls) (s : ApplicationClass) (scene : SceneController)
    (cancelModal : Bool) : ApplicationClass :=
  match s._currentScene with
  | some cur =>
    if d.isModal cur ∧ cancelModal = false then s
    else { s with _nextScene := some scene }
  | none => { s with _nextScene := some scene }

/-- `ApplicationClass::pushJob` (lines 281-283). -/
def pushJob (s : ApplicationClass) (job : BackgroundJob) : ApplicationClass :=
  { s with _nextJob := some job }

/-- What one call of `runTask` leaves behind: the application, the
out-parameters and the returned `bool`. -/
structure TaskResult where
  app : ApplicationClass
  out : Out
  ret : Bool

/-- The chain of comparisons on the `DownloadError` code (lines 362-378). -/
def downloadErrorScene (d : Decls) (error : Nat) : Option SceneController :=
  if error = d.downloadErrorCode .Timeout then some (.ErrorScene "Timeout" none)
  else if error = d.downloadErrorCode .InternalServerError then
    some (.ErrorScene "Internal Server Error" none)
  else if error = d.downloadErrorCode .FileNotFound then some (.ErrorScene "File not found" none)
  else if error = d.downloadErrorCode .Forbidden then some (.ErrorScene "Forbidden" none)
  else if error = d.downloadErrorCode .UnknownError then some (.ErrorScene "Unknown Error" none)
  else if error = d.downloadErrorCode .ConnectionFailed then
    some (.ErrorScene "Connection failed" none)
  else if error = d.downloadErrorCode .PrepareDownloadedFileFailed then
    some (.ErrorScene "File preparation failed" none)
  else if error = d.downloadErrorCode .RemoveOldFilesFailed then
    some (.ErrorScene "Remove old file failed" none)
  else none

/-- `ApplicationClass::runTask` (lines 313-579).  The body is read along its
indentation: the handler chain that follows the two delegations belongs to
the function and every path through it ends in `return true`.  `Application`
is the object the function runs on.  Log output is not recorded. -/
def runTask (d : Decls) (s : ApplicationClass) (header : CommHeader) (data : Nat → Nat)
    (dataSize : Nat) (out : Out) : TaskResult :=
  match s._currentScene.filter (fun scene => d.sceneHandlesTask scene header.getCurrentTask) with
  | some scene =>
    let r := d.sceneRunTask scene header data dataSize out
    { app := s.emit (.sceneRunTask scene header), out := r.1, ret := r.2 }
  | none =>
  match s._currentJob.filter (fun job => d.jobHandlesTask job header.getCurrentTask) with
  | some job =>
    let r := d.jobRunTask job header data dataSize out
    { app := s.emit (.jobRunTask job header), out := r.1, ret := r.2 }
  | none =>
  match header.getCurrentTask with
  | .SaveProjectWithID =>
    if header.commType = .Request then
      let root := d.parseObject data
      let s1 :=
        if root.success then
          let url := root.str "url"
          if url.length > 0 then
            let localFilePath := "/projects/" ++ root.str "id"
            let s2 :=
              if localFilePath ∈ s.sdFiles then
                { s with sdFiles := s.sdFiles.filter (fun f => f ≠ localFilePath) }.emit
                  (.sdRemove localFilePath)
              else s
            pushScene d s2 (.DownloadFileController url localFilePath) d.cancelModalDefault
          else s
        else s
      { app := s1, out := { out with sendResponse := false }, ret := true }
    else { app := s, out := out, ret := true }
  | .DownloadError =>
    if header.commType = .Request then
      let error := data 0 % 256
      let s1 :=
        match downloadErrorScene d error with
        | some scene => pushScene d s scene d.cancelModalDefault
        | none => s
      { app := s1, out := { out with sendResponse := false }, ret := true }
    else { app := s, out := out, ret := true }
  | .FirmwareUpdateError =>
    if header.commType = .Request then
      let error := data 0 % 256
      let s1 :=
        if error = d.firmwareUnknownErrorCode then
          pushScene d s (.ErrorScene "Unknown Error" none) d.cancelModalDefault
        else s
      { app := s1, out := { out with sendResponse := false }, ret := true }
    else { app := s, out := out, ret := true }
  | .GetTimeAndDate =>
    if header.commType = .ResponseSuccess then
      let s1 := (s.emit (.displaySetCursor 10 30)).emit (.displayPrintln "Data available, reading...")
      let datetime := (List.range header.contentLength).map data
      let s2 := (s1.emit (.displaySetCursor 10 50)).emit (.displayPrintln "Received datetime from ESP")
      { app := s2.emit (.displayPrintData datetime), out := out, ret := true }
    else { app := s, out := out, ret := true }
  | .StartFirmwareUpdate =>
    if header.commType = .ResponseSuccess then
      { app := pushScene d s (.ErrorScene "Updating Firmware" (some false)) d.cancelModalDefault,
        out := out, ret := true }
    else { app := s, out := out, ret := true }
  | .Ping =>
    if header.commType = .ResponseSuccess then
      let s1 := { s with _espOK := true }
      { app := pushScene d s1 .ProjectsScene d.cancelModalDefault, out := out, ret := true }
    else if header.commType = .Request then
      let s1 := { s with _espOK := true }
      let buildNumber := d.FIRMWARE_BUILDNR
      { app := s1
        out := { out with sendResponse := true, responseDataSize := sizeofInt,
                          responseData := memcpy out.responseData (intBytes buildNumber) }
        ret := true }
    else { app := s, out := out, ret := true }
  | .ShowFirmwareUpdateNotification =>
    if header.commType = .Request then
      { app := pushScene d s .ConfirmFirmwareUpdateScene d.cancelModalDefault,
        out := { out with sendResponse := false }, ret := true }
    else { app := s, out := out, ret := true }
  | .DebugLog => { app := s, out := { out with sendResponse := false }, ret := true }
  | .RestartESP => { app := resetESP s, out := { out with sendResponse := false }, ret := true }
  | .FirmwareUpdateComplete =>
    { app := pushScene d (resetESP s) .ProjectsScene true,
      out := { out with sendResponse := false }, ret := true }
  | .FileOpenForWrite =>
    if header.commType = .Request then
      let root := d.parseObject data
      let r : ApplicationClass × Out :=
        if root.success then
          let localFilePath := root.str "localFilePath"
          if localFilePath.length > 0 then
            if localFilePath ∈ s.sdFiles then
              let fileSize := root.num "fileSize"
              (pushJob s (.ReceiveSDCardFile localFilePath fileSize),
               { out with responseDataSize := 0, sendResponse := true, success := true })
            else
              (s, { out with responseDataSize := 0, sendResponse := true, success := false })
          else (s, out)
        else (s, out)
      { app := r.1, out := { r.2 with sendResponse := false }, ret := true }
    else { app := s, out := out, ret := true }
  | _ => { app := s, out := out, ret := true }

/-- Modelled from the spec: `CommStack::process` (CommStack is not among the
sources).  "`process()` is called once per tick, drains available inbound
bytes, reassembles whole frames, and invokes the Router for each complete
frame exactly once, in arrival order."  The router is `runTask` of the
delegate, which is the application (line 30).  What CommStack does with the
out-parameters after the call is not recorded. -/
def espProcess (d : Decls) (s : ApplicationClass) (inbound : List Frame) : ApplicationClass :=
  inbound.foldl
    (fun app frame => (runTask d app frame.header frame.data frame.dataSize frame.out).app) s

/-- Lines 122-128 of `loop`: the periodic ping. -/
def loopPing (d : Decls) (s : ApplicationClass) (env : Tick) : ApplicationClass :=
  if ¬ s._espOK then
    if subUL env.millisCheck s._lastESPPing > 5000 then
      { pingESP d s with _lastESPPing := env.millisStamp }
    else s
  else s

/-- Lines 130-139 of `loop`: the call of `_esp->process()`, which hands the
inbound frames of this pass to `runTask`, then the calls on Printr, Animator
and the status LED. -/
def loopServices (d : Decls) (s : ApplicationClass) (env : Tick) : ApplicationClass :=
  (((espProcess d (s.emit .espProcess) env.inbound).emit .printrLoop).emit
    .animatorUpdate).emit .statusLedLoop

/-- Lines 144-162 of `loop`: background job handoff and job tick. -/
def loopJobs (s : ApplicationClass) : ApplicationClass :=
  let s1 :=
    match s._nextJob with
    | some next =>
      let s2 :=
        match s._currentJob with
        | some cur => (s.emit (.jobOnWillEnd cur)).emit (.jobDelete cur)
        | none => s
      { s2 with _currentJob := some next, _nextJob := none }.emit (.jobOnWillStart next)
    | none => s
  match s1._currentJob with
  | some cur => s1.emit (.jobLoop cur)
  | none => s1

/-- Lines 164-181 of `loop`: scene handoff. -/
def loopSceneSwitch (s : ApplicationClass) : ApplicationClass :=
  match s._nextScene with
  | some next =>
    let s1 := (s.emit .displayFadeOut).emit .displayClear
    let s2 :=
      match s1._currentScene with
      | some cur => s1.emit (.sceneDelete cur)
      | none => s1
    { s2 with _currentScene := some next, _nextScene := none, _firstSceneLoop := true }
  | none => s

/-- Lines 183-258 of `loop`: running the current scene. -/
def loopScene (s : ApplicationClass) (env : Tick) : ApplicationClass :=
  match s._currentScene with
  | some sceneController =>
    let s1 :=
      if s._firstSceneLoop then
        ((s.emit .displayClear).emit (.sceneSetupDisplay sceneController)).emit
          (.sceneOnWillAppear sceneController)
      else s
    let s2 := handleTouches s1 env
    let s3 := s2.emit (.sceneLoop sceneController)
    let willRefresh := env.willRefresh
    let s4 := if willRefresh then s3.emit (.digitalWrite .COMMSTACK_DATAFLOW_PIN .LOW) else s3
    let s5 := (s4.emit .displayLayoutIfNeeded).emit .displayDispatch
    let s6 := if s5._firstSceneLoop then s5.emit .displayFadeIn else s5
    let s7 := if willRefresh then s6.emit (.digitalWrite .COMMSTACK_DATAFLOW_PIN .HIGH) else s6
    { s7 with _firstSceneLoop := false }
  | none => s

/-- `ApplicationClass::loop` (lines 120-266). -/
def loop (d : Decls) (s : ApplicationClass) (env : Tick) : ApplicationClass :=
  loopScene (loopSceneSwitch (loopJobs (loopServices d (loopPing d s env) env))) env

/-! ## Runs -/

/-- One call on the application made from outside the class: a pass of the
main loop, `pushScene`, `pushJob`, or a frame handed to `runTask`. -/
inductive Call where
  | loop (env : Tick)
  | pushScene (scene : SceneController) (cancelModal : Bool)
  | pushJob (job : BackgroundJob)
  | runTask (header : CommHeader) (data : Nat → Nat) (dataSize : Nat) (out : Out)

/-- The application after one call. -/
def step (d : Decls) (s : ApplicationClass) : Call → ApplicationClass
  | .loop env => loop d s env
  | .pushScene scene cancelModal => pushScene d s scene cancelModal
  | .pushJob job => pushJob s job
  | .runTask header data dataSize out => (runTask d s header data dataSize out).app

/-- The application after a sequence of calls, first call first. -/
def run (d : Decls) (s : ApplicationClass) (calls : List Call) : ApplicationClass :=
  calls.foldl (step d) s

/-! ## Vocabulary of the statements -/

/-- The current scene exists and claims the task (the test of line 315). -/
def sceneClaims (d : Decls) (s : ApplicationClass) (task : TaskID) : Bool :=
  match s._currentScene with
  | some scene => d.sceneHandlesTask scene task
  | none => false

/-- The current job exists and claims the task (the test of line 321). -/
def jobClaims (d : Decls) (s : ApplicationClass) (task : TaskID) : Bool :=
  match s._currentJob with
  | some job => d.jobHandlesTask job task
  | none => false

/-- The collaborator calls logged between state `s` and a later state `t`. -/
def emitted (s t : ApplicationClass) : List Ev := t.trace.drop s.trace.length

/-- A frame was handed on to a scene or to a job. -/
def Ev.isDelegation : Ev → Bool
  | .sceneRunTask _ _ => true
  | .jobRunTask _ _ => true
  | _ => false

/-- A hook of the job engine called on `job`. -/
def Ev.isHookOf (job : BackgroundJob) : Ev → Bool
  | .jobOnWillStart j => j = job
  | .jobLoop j => j = job
  | .jobOnWillEnd j => j = job
  | _ => false

/-- A hook of the job engine called on any job. -/
def Ev.isJobHook : Ev → Bool
  | .jobOnWillStart _ => true
  | .jobLoop _ => true
  | .jobOnWillEnd _ => true
  | _ => false

/-- A `Ping` request handed to the CommStack. -/
def Ev.isPingRequest : Ev → Bool
  | .requestTask .Ping _ _ => true
  | _ => false

/-- Number of `Ping` requests sent so far. -/
def pingsSent (s : ApplicationClass) : Nat := (s.trace.filter Ev.isPingRequest).length

/-! ## Concrete collaborators used to evaluate the embedding -/

/-- A sample set of declarations: scene `Other 1` and job `Other 2` claim
`Ping`, job `Other 3` claims `DebugLog`, scene `Other 9` is modal, and a
payload decodes exactly when its first byte is an opening brace. -/
def sampleDecls : Decls :=
  { FIRMWARE_BUILDNR := 1000
    cancelModalDefault := false
    isModal := fun scene => scene == .Other 9
    sceneHandlesTask := fun scene task => scene == .Other 1 && task == .Ping
    sceneRunTask := fun _ _ _ _ out => ({ out with sendResponse := false }, true)
    jobHandlesTask := fun job task =>
      (job == .Other 2 && task == .Ping) || (job == .Other 3 && task == .DebugLog)
    jobRunTask := fun _ _ _ _ out => ({ out with sendResponse := true }, true)
    parseObject := fun data =>
      { success := data 0 == 123
        str := fun key => if key = "url" then "http://host/file" else "item"
        num := fun _ => 1000 }
    downloadErrorCode := fun e =>
      match e with
      | .Timeout => 0
      | .InternalServerError => 1
      | .FileNotFound => 2
      | .Forbidden => 3
      | .UnknownError => 4
      | .ConnectionFailed => 5
      | .PrepareDownloadedFileFailed => 6
      | .RemoveOldFilesFailed => 7
    firmwareUnknownErrorCode := 0 }

/-- Out-parameters as a caller may pass them: an all-zero buffer and the two
flags as given. -/
def sampleOut (sendResponse success : Bool) : Out :=
  { responseData := fun _ => 0, responseDataSize := 0,
    sendResponse := sendResponse, success := success }

/-- A payload buffer holding the given bytes, zero beyond them. -/
def bufferOf (bytes : List Nat) : Nat → Nat := fun i => bytes.getD i 0

/-- A tick at the given time without inbound frame, without touch and without
display refresh. -/
def quietTick (ms : Nat) : Tick :=
  { millisCheck := ms, millisStamp := ms, inbound := [], touch := none, willRefresh := false }

/-- A state with scene `Other 1` current and job `Other 2` current. -/
def sampleBusy : ApplicationClass :=
  { ApplicationClass.new [] with _currentScene := some (.Other 1), _currentJob := some (.Other 2) }

/-- A `Ping` request header. -/
def pingRequest : CommHeader := { currentTask := .Ping, commType := .Request, contentLength := 4 }

/-- State `t` continues the log of state `s` by events that all satisfy `p`. -/
def Extends (p : Ev → Bool) (s t : ApplicationClass) : Prop :=
  ∃ evs, t.trace = s.trace ++ evs ∧ ∀ e ∈ evs, p e = true

/-- Calls on the display, on the hooks of the current scene, and writes of
the data-flow pin: what the scene part of `loop` may log. -/
def Ev.isSceneSide : Ev → Bool
  | .displayFadeOut => true
  | .displayClear => true
  | .displayFadeIn => true
  | .displayLayoutIfNeeded => true
  | .displayDispatch => true
  | .sceneDelete _ => true
  | .sceneSetupDisplay _ => true
  | .sceneOnWillAppear _ => true
  | .sceneTouchMoved _ _ _ => true
  | .sceneTouchDown _ _ => true
  | .sceneTouchUp _ _ => true
  | .sceneLoop _ => true
  | .digitalWrite .COMMSTACK_DATAFLOW_PIN _ => true
  | _ => false

/-- The calls logged by lines 130-139 of `loop`. -/
def Ev.isService : Ev → Bool
  | .espProcess => true
  | .printrLoop => true
  | .animatorUpdate => true
  | .statusLedLoop => true
  | _ => false

/-- The order of job hooks in one pass of the job engine as the specification
words it, for a current job and a pending next job. -/
def hookOrder : Option BackgroundJob → Option BackgroundJob → List Ev
  | some cur, some next => [.jobOnWillEnd cur, .jobOnWillStart next, .jobLoop next]
  | none, some next => [.jobOnWillStart next, .jobLoop next]
  | some cur, none => [.jobLoop cur]
  | none, none => []

/-- The calls logged by the job part of `loop` (lines 144-162). -/
def Ev.isJobSide : Ev → Bool
  | .jobOnWillEnd _ => true
  | .jobDelete _ => true
  | .jobOnWillStart _ => true
  | .jobLoop _ => true
  | _ => false

/-- The calls the branches of `runTask` may log: the delegation to a scene or
job, the removal of a file, the display output of `GetTimeAndDate` and the
calls of `resetESP`. -/
def Ev.isTaskSide : Ev → Bool
  | .sceneRunTask _ _ => true
  | .jobRunTask _ _ => true
  | .sdRemove _ => true
  | .displaySetCursor _ _ => true
  | .displayPrintln _ => true
  | .displayPrintData _ => true
  | .pinMode _ _ => true
  | .digitalWrite .ESP_RESET _ => true
  | .delay _ => true
  | _ => false

/-- The calls logged by lines 130-139 of `loop`, those of the frames handed
over by `process()` included. -/
def Ev.isServiceSide (e : Ev) : Bool := e.isService || e.isTaskSide

/-- Any call that one pass of `loop` may log. -/
def Ev.isLoopSide (e : Ev) : Bool :=
  e.isPingRequest || e.isServiceSide || e.isJobSide || e.isSceneSide

/-- The three hooks the job engine calls on a job. -/
inductive Hook where
  | onWillStart
  | loop
  | onWillEnd
  deriving DecidableEq, Repr

/-- The hook a logged call is, when it is a hook called on `job`. -/
def hookOf (job : BackgroundJob) : Ev → Option Hook
  | .jobOnWillStart j => if j = job then some .onWillStart else none
  | .jobLoop j => if j = job then some .loop else none
  | .jobOnWillEnd j => if j = job then some .onWillEnd else none
  | _ => none

/-- The hooks called on `job`, in the order of the log. -/
def hookTrace (job : BackgroundJob) (trace : List Ev) : List Hook :=
  trace.filterMap (hookOf job)

/-- What may follow `onWillStart`: `loop` calls, then at most one `onWillEnd`,
and nothing after it. -/
def afterStart : List Hook → Bool
  | [] => true
  | [.onWillEnd] => true
  | .loop :: rest => afterStart rest
  | _ => false

/-- The shape of the hooks of one job: nothing at all, or one `onWillStart`
followed by `loop` calls and at most one final `onWillEnd`. -/
def lifecycle : List Hook → Bool
  | [] => true
  | .onWillStart :: rest => afterStart rest
  | _ => false

/-- The hooks of a job that was started and not yet ended. -/
def running : List Hook → Bool
  | .onWillStart :: rest => rest.all (fun h => h == .loop)
  | _ => false

/-- The hooks of a job that was started and ended. -/
def finished : List Hook → Bool
  | .onWillStart :: rest =>
    rest.dropLast.all (fun h => h == .loop) && rest.getLast? == some .onWillEnd
  | _ => false

/-- The call is one of the two calls of the job engine: `pushJob` or `loop`. -/
def Call.isJobEngineCall : Call → Bool
  | .loop _ => true
  | .pushJob _ => true
  | _ => false

/-- The job that the built-in handler queues for a frame when it queues one:
the `ReceiveSDCardFile` job made from the decoded payload of a
`FileOpenForWrite` request (line 484).  No other branch calls `pushJob`. -/
def Frame.queuedJob (d : Decls) (f : Frame) : Option BackgroundJob :=
  if f.header.getCurrentTask = .FileOpenForWrite ∧ f.header.commType = .Request then
    some (.ReceiveSDCardFile ((d.parseObject f.data).str "localFilePath")
      ((d.parseObject f.data).num "fileSize"))
  else none

/-- The jobs handed to `pushJob` in a sequence of calls, in order: those of
the `pushJob` calls and, for a tick, those that the `FileOpenForWrite`
requests among its inbound frames queue or would queue. -/
def pushedJobs (d : Decls) : List Call → List BackgroundJob
  | [] => []
  | .pushJob job :: rest => job :: pushedJobs d rest
  | .loop env :: rest => env.inbound.filterMap (Frame.queuedJob d) ++ pushedJobs d rest
  | _ :: rest => pushedJobs d rest

/-- The invariant behind the job lifecycle, for one job and the jobs still to
be pushed: the job is current and running, or it is over, or it has not been
started yet. -/
def JobInv (job : BackgroundJob) (s : ApplicationClass) (later : List BackgroundJob) : Prop :=
  (s._currentJob = some job ∧ running (hookTrace job s.trace) = true ∧
      s._nextJob ≠ some job ∧ job ∉ later) ∨
  (s._currentJob ≠ some job ∧ finished (hookTrace job s.trace) = true ∧
      s._nextJob ≠ some job ∧ job ∉ later) ∨
  (s._currentJob ≠ some job ∧ hookTrace job s.trace = [] ∧
      (s._nextJob = some job → job ∉ later))

/-- A sample run of the job engine: two jobs pushed one after the other, with
passes of `loop` in between. -/
def sampleJobCalls : List Call :=
  [.pushJob (.Other 5), .loop (quietTick 10), .loop (quietTick 20), .pushJob (.Other 6),
   .loop (quietTick 30), .loop (quietTick 40)]

/-- Any logged call other than a `Ping` request. -/
def Ev.notPing (e : Ev) : Bool := !e.isPingRequest

/-- The frame is a `Ping` frame of one of the two kinds on which the built-in
handler sets `_espOK`: `ResponseSuccess` or `Request`. -/
def Frame.isConfirmingPing (f : Frame) : Bool :=
  f.header.getCurrentTask == .Ping &&
    (f.header.commType == .ResponseSuccess || f.header.commType == .Request)

/-- The call hands a `Ping` response frame (success or error) to `runTask`,
on its own or among the inbound frames of a tick. -/
def Call.isPingResponse : Call → Bool
  | .runTask header _ _ _ =>
    header.getCurrentTask == .Ping &&
      (header.commType == .ResponseSuccess || header.commType == .ResponseError)
  | .loop env =>
    env.inbound.any (fun f => f.header.getCurrentTask == .Ping &&
      (f.header.commType == .ResponseSuccess || f.header.commType == .ResponseError))
  | _ => false

/-- The call hands to `runTask`, on its own or among the inbound frames of a
tick, a `Ping` frame of one of the two kinds on which the built-in handler
sets `_espOK`: `ResponseSuccess` or `Request`. -/
def Call.isConfirmingPing : Call → Bool
  | .runTask header _ _ _ =>
    header.getCurrentTask == .Ping &&
      (header.commType == .ResponseSuccess || header.commType == .Request)
  | .loop env => env.inbound.any Frame.isConfirmingPing
  | _ => false

/-- The task kinds that have a branch in the built-in chain of `runTask`. -/
def TaskID.isBuiltin : TaskID → Bool
  | .SaveProjectWithID => true
  | .DownloadError => true
  | .FirmwareUpdateError => true
  | .GetTimeAndDate => true
  | .StartFirmwareUpdate => true
  | .Ping => true
  | .ShowFirmwareUpdateNotification => true
  | .DebugLog => true
  | .RestartESP => true
  | .FirmwareUpdateComplete => true
  | .FileOpenForWrite => true
  | _ => false

/-- A state with the modal scene `Other 9` current and `ProjectsScene`
already pending. -/
def sampleModal : ApplicationClass :=
  { ApplicationClass.new [] with
    _currentScene := some (.Other 9), _nextScene := some .ProjectsScene }

/-- A request header for the given task. -/
def requestFor (task : TaskID) : CommHeader :=
  { currentTask := task, commType := .Request, contentLength := 0 }

/-- The message passed to `ErrorScene` for each `DownloadError` enumerator in
the chain of lines 362-378. -/
def downloadErrorMessage : DownloadError → String
  | .Timeout => "Timeout"
  | .InternalServerError => "Internal Server Error"
  | .FileNotFound => "File not found"
  | .Forbidden => "Forbidden"
  | .UnknownError => "Unknown Error"
  | .ConnectionFailed => "Connection failed"
  | .PrepareDownloadedFileFailed => "File preparation failed"
  | .RemoveOldFilesFailed => "Remove old file failed"

/-- The calls of `resetESP`, in order. -/
def resetSequence : List Ev :=
  [.pinMode .ESP_RESET .OUTPUT, .digitalWrite .ESP_RESET .LOW, .delay 100,
   .digitalWrite .ESP_RESET .HIGH, .pinMode .ESP_RESET .INPUT]

/-- Writes of the data-flow pin and the two calls of the display section they
are meant to protect (`layoutIfNeeded`, `dispatch`). -/
def Ev.isFlowControl : Ev → Bool
  | .digitalWrite .COMMSTACK_DATAFLOW_PIN _ => true
  | .displayLayoutIfNeeded => true
  | .displayDispatch => true
  | _ => false

/-- A write of the data-flow pin. -/
def Ev.isDataFlowWrite : Ev → Bool
  | .digitalWrite .COMMSTACK_DATAFLOW_PIN _ => true
  | _ => false

/-- A tick at the given time without inbound frame and without touch, with
the display reporting a pending refresh. -/
def refreshTick (ms : Nat) : Tick :=
  { millisCheck := ms, millisStamp := ms, inbound := [], touch := none, willRefresh := true }

/-- The calls `handleTouches` makes on the scene. -/
def Ev.isTouch : Ev → Bool
  | .sceneTouchMoved _ _ _ => true
  | .sceneTouchDown _ _ => true
  | .sceneTouchUp _ _ => true
  | _ => false

/-- The writes of the data-flow pin around the display section as the
specification words them: with a scene to run and a pending refresh the line
goes LOW before `layoutIfNeeded` and `dispatch` and HIGH after them; without
a pending refresh the display section runs with no write; without a scene
nothing happens. -/
def flowOrder : Option SceneController → Bool → List Ev
  | some _, true =>
    [.digitalWrite .COMMSTACK_DATAFLOW_PIN .LOW, .displayLayoutIfNeeded, .displayDispatch,
     .digitalWrite .COMMSTACK_DATAFLOW_PIN .HIGH]
  | some _, false => [.displayLayoutIfNeeded, .displayDispatch]
  | none, _ => []

/-- Modelled from the spec: the state of the push role of the file transfer
job.  Only the class declaration `esp/src/controllers/PushFileToSDCard.h` is
among the sources; it names the members `_waitForResponse`, `_fileOpen` and
`_bytesLeft`, their use is taken from section 4.5 of the specification.  The
last three fields are a record of what the job did: the lengths of the chunks
sent (oldest first), the number of chunks acknowledged, and the number of
completion signals. -/
structure PushFileToSDCard where
  _waitForResponse : Bool
  _fileOpen : Bool
  _bytesLeft : Nat
  sent : List Nat
  acked : Nat
  completed : Nat
  deriving DecidableEq, Repr

/-- Modelled from the spec: `onWillStart` opens the local file; `file` is its
size when it can be opened.  "Fail the job (report error, do not start) if
the file cannot be opened." -/
def PushFileToSDCard.onWillStart (file : Option Nat) : PushFileToSDCard :=
  match file with
  | some size =>
    { _waitForResponse := false, _fileOpen := true, _bytesLeft := size,
      sent := [], acked := 0, completed := 0 }
  | none =>
    { _waitForResponse := false, _fileOpen := false, _bytesLeft := 0,
      sent := [], acked := 0, completed := 0 }

/-- Modelled from the spec: one `loop()` of the push role for a payload bound
`bound`.  "While `!waitingForAck` and `bytesRemaining > 0`: read a bounded
chunk, send it as a Request frame, set `waitingForAck = true`, decrement
`bytesRemaining` by the chunk length.  When `bytesRemaining` reaches 0, close
the handle and signal completion exactly once."  The chunk is the payload
bound or what is left of the file, whichever is smaller; `_bytesLeft` is a
`size_t`, decremented with 32-bit wrap-around. -/
def PushFileToSDCard.loop (bound : Nat) (s : PushFileToSDCard) : PushFileToSDCard :=
  if s._fileOpen ∧ ¬ s._waitForResponse then
    if s._bytesLeft > 0 then
      let chunk := min bound s._bytesLeft
      { s with sent := s.sent ++ [chunk], _waitForResponse := true,
               _bytesLeft := subUL s._bytesLeft chunk }
    else
      { s with _fileOpen := false, completed := s.completed + 1 }
  else s

/-- Modelled from the spec: `runTask` of the push role on a frame of the
transfer task.  "On receiving the matching ResponseSuccess, clear
`waitingForAck` to permit the next chunk.  On receiving ResponseError, abort
the transfer, close the handle."  A request is not for the push role. -/
def PushFileToSDCard.runTask (s : PushFileToSDCard) (commType : CommType) : PushFileToSDCard :=
  match commType with
  | .ResponseSuccess =>
    if s._waitForResponse then { s with _waitForResponse := false, acked := s.acked + 1 }
    else s
  | .ResponseError => { s with _fileOpen := false }
  | .Request => s

/-- Modelled from the spec: what happens to a push job during a run, a tick
or an inbound frame of the transfer task. -/
inductive PushCall where
  | loop
  | runTask (commType : CommType)
  deriving DecidableEq, Repr

/-- Modelled from the spec: the push job after one call. -/
def PushFileToSDCard.step (bound : Nat) (s : PushFileToSDCard) : PushCall → PushFileToSDCard
  | .loop => s.loop bound
  | .runTask commType => s.runTask commType

/-- Modelled from the spec: the push job after a sequence of calls, first
call first. -/
def PushFileToSDCard.run (bound : Nat) (s : PushFileToSDCard) (calls : List PushCall) :
    PushFileToSDCard :=
  calls.foldl (PushFileToSDCard.step bound) s

/-- The number of chunks sent and not acknowledged. -/
def PushFileToSDCard.unacknowledged (s : PushFileToSDCard) : Nat := s.sent.length - s.acked

/-- The invariant of the push role for a file of `fileSize` bytes: what is
left and what was sent add up to the file, every chunk is non-empty and
within the bound, a chunk is outstanding exactly while `_waitForResponse` is
set, and completion is signalled at most once, with nothing left. -/
def PushInv (bound fileSize : Nat) (s : PushFileToSDCard) : Prop :=
  s._bytesLeft + s.sent.sum = fileSize ∧
  (∀ c ∈ s.sent, 0 < c ∧ c ≤ bound) ∧
  s.sent.length = s.acked + (if s._waitForResponse then 1 else 0) ∧
  s.completed ≤ 1 ∧
  (s._fileOpen = true → s.completed = 0) ∧
  (s.completed = 1 → s._bytesLeft = 0 ∧ s._waitForResponse = false)

/-- The schedule in which every chunk is acknowledged before the next tick:
four chunks, then the tick that completes. -/
def ackedSchedule : List PushCall :=
  [.loop, .runTask .ResponseSuccess, .loop, .runTask .ResponseSuccess, .loop,
   .runTask .ResponseSuccess, .loop, .runTask .ResponseSuccess, .loop]

/-- The frame is a `FileOpenForWrite` request, the one kind of frame whose
built-in handler calls `pushJob`. -/
def Frame.mayQueueJob (f : Frame) : Bool :=
  f.header.getCurrentTask == .FileOpenForWrite && f.header.commType == .Request

/-- The job pending when the handoff of line 145 is reached: the pending job
after the frames of the tick have been handed to `runTask`. -/
def pendingJob (d : Decls) (s : ApplicationClass) (env : Tick) : Option BackgroundJob :=
  (loopServices d (loopPing d s env) env)._nextJob

/-- A request frame for the given task with the given payload bytes, handed
over with `sendResponse` and `success` set. -/
def sampleFrame (task : TaskID) (bytes : List Nat) : Frame :=
  { header := requestFor task, data := bufferOf bytes, dataSize := bytes.length,
    out := sampleOut true true }

/-- A tick at the given time that hands over the given frames, without touch
and without display refresh. -/
def frameTick (ms : Nat) (inbound : List Frame) : Tick :=
  { millisCheck := ms, millisStamp := ms, inbound := inbound, touch := none,
    willRefresh := false }

/-! ## Basic facts -/

theorem filter_claims_scene {d : Decls} {s : ApplicationClass} {task : TaskID}
    (h : sceneClaims d s task = false) :
    s._currentScene.filter (fun scene => d.sceneHandlesTask scene task) = none := by
  unfold sceneClaims at h
  cases hs : s._currentScene with
  | none => rfl
  | some scene => simp [hs] at h; simp [Option.filter, h]

theorem filter_claims_job {d : Decls} {s : ApplicationClass} {task : TaskID}
    (h : jobClaims d s task = false) :
    s._currentJob.filter (fun job => d.jobHandlesTask job task) = none := by
  unfold jobClaims at h
  cases hs : s._currentJob with
  | none => rfl
  | some job => simp [hs] at h; simp [Option.filter, h]

theorem emitted_append (s t : ApplicationClass) (evs : List Ev)
    (h : t.trace = s.trace ++ evs) : emitted s t = evs := by
  simp [emitted, h]

theorem pushScene_trace (d : Decls) (s : ApplicationClass) (scene : SceneController)
    (cancelModal : Bool) : (pushScene d s scene cancelModal).trace = s.trace := by
  unfold pushScene
  split
  · split <;> rfl
  · rfl

theorem resetESP_trace (s : ApplicationClass) :
    (resetESP s).trace = s.trace ++
      [.pinMode .ESP_RESET .OUTPUT, .digitalWrite .ESP_RESET .LOW, .delay 100,
       .digitalWrite .ESP_RESET .HIGH, .pinMode .ESP_RESET .INPUT] := by
  simp [resetESP, ApplicationClass.emit]

/-! ## C1: routing priority -/

/-- C1, as stated, fails: with scene `Other 1` and job `Other 2` both claiming
`Ping`, the frame is handed to the scene and the job is not called. -/
theorem runTask_job_before_scene_fails :
    sceneClaims sampleDecls sampleBusy pingRequest.getCurrentTask = true ∧
    jobClaims sampleDecls sampleBusy pingRequest.getCurrentTask = true ∧
    emitted sampleBusy
        (runTask sampleDecls sampleBusy pingRequest (bufferOf []) 0 (sampleOut false true)).app
      = [Ev.sceneRunTask (.Other 1) pingRequest] ∧
    (runTask sampleDecls sampleBusy pingRequest (bufferOf []) 0 (sampleOut false true)).out.sendResponse
      = false := by
  refine ⟨by decide, by decide, by decide, by decide⟩

/-- C1 amended: the order is scene, then job, then the built-in chain.  A
claiming current scene receives the frame whatever the job claims; a claiming
current job receives it when the scene does not claim it; when neither claims
it no scene or job `runTask` is called.  In the first two cases the delegate
call is the only thing `runTask` does. -/
theorem runTask_priority (d : Decls) (s : ApplicationClass) (header : CommHeader)
    (data : Nat → Nat) (dataSize : Nat) (out : Out) :
    (∀ scene, s._currentScene = some scene →
        d.sceneHandlesTask scene header.getCurrentTask = true →
        runTask d s header data dataSize out =
          { app := s.emit (.sceneRunTask scene header)
            out := (d.sceneRunTask scene header data dataSize out).1
            ret := (d.sceneRunTask scene header data dataSize out).2 }) ∧
    (∀ job, sceneClaims d s header.getCurrentTask = false → s._currentJob = some job →
        d.jobHandlesTask job header.getCurrentTask = true →
        runTask d s header data dataSize out =
          { app := s.emit (.jobRunTask job header)
            out := (d.jobRunTask job header data dataSize out).1
            ret := (d.jobRunTask job header data dataSize out).2 }) ∧
    (sceneClaims d s header.getCurrentTask = false →
        jobClaims d s header.getCurrentTask = false →
        ∀ e ∈ emitted s (runTask d s header data dataSize out).app, e.isDelegation = false) := by
  refine ⟨?_, ?_, ?_⟩
  · intro scene hs hc
    simp [runTask, hs, Option.filter, hc]
  · intro job hsc hj hc
    unfold runTask
    rw [filter_claims_scene hsc]
    simp [hj, Option.filter, hc]
  · intro hsc hjc
    unfold runTask
    rw [filter_claims_scene hsc, filter_claims_job hjc]
    simp only [emitted]
    repeat' split
    all_goals simp [pushScene_trace, resetESP_trace, pushJob, ApplicationClass.emit,
      Ev.isDelegation]

/-! ## The sections of `loop` -/

theorem Extends.refl (p : Ev → Bool) (s : ApplicationClass) : Extends p s s :=
  ⟨[], by simp, by simp⟩

theorem Extends.trans {p : Ev → Bool} {s t u : ApplicationClass}
    (h1 : Extends p s t) (h2 : Extends p t u) : Extends p s u := by
  obtain ⟨a, ha, pa⟩ := h1
  obtain ⟨b, hb, pb⟩ := h2
  refine ⟨a ++ b, by simp [hb, ha], ?_⟩
  intro e he
  rcases List.mem_append.mp he with h | h
  · exact pa e h
  · exact pb e h

theorem Extends.emit {p : Ev → Bool} (s : ApplicationClass) (e : Ev) (h : p e = true) :
    Extends p s (s.emit e) :=
  ⟨[e], rfl, by simpa using h⟩

theorem Extends.of_trace_eq {p : Ev → Bool} {s t u : ApplicationClass}
    (h : Extends p s t) (hu : u.trace = t.trace) : Extends p s u := by
  obtain ⟨a, ha, pa⟩ := h
  exact ⟨a, by rw [hu, ha], pa⟩

theorem Extends.mono {p q : Ev → Bool} {s t : ApplicationClass}
    (h : Extends p s t) (hpq : ∀ e, p e = true → q e = true) : Extends q s t := by
  obtain ⟨a, ha, pa⟩ := h
  exact ⟨a, ha, fun e he => hpq e (pa e he)⟩

theorem Extends.filter_eq {p q : Ev → Bool} {s t : ApplicationClass}
    (h : Extends p s t) (hpq : ∀ e, p e = true → q e = false) :
    t.trace.filter q = s.trace.filter q := by
  obtain ⟨a, ha, pa⟩ := h
  rw [ha, List.filter_append]
  have : a.filter q = [] := by
    rw [List.filter_eq_nil_iff]
    intro e he
    simp [hpq e (pa e he)]
  simp [this]

theorem loopPing_extends (d : Decls) (s : ApplicationClass) (env : Tick) :
    Extends Ev.isPingRequest s (loopPing d s env) := by
  unfold loopPing
  split_ifs
  · exact Extends.refl _ s
  · exact ⟨[.requestTask .Ping sizeofInt (intBytes d.FIRMWARE_BUILDNR)], rfl, by simp [Ev.isPingRequest]⟩
  · exact Extends.refl _ s

theorem loopPing_jobs (d : Decls) (s : ApplicationClass) (env : Tick) :
    (loopPing d s env)._currentJob = s._currentJob ∧ (loopPing d s env)._nextJob = s._nextJob := by
  unfold loopPing
  split_ifs <;> exact ⟨rfl, rfl⟩

theorem loopPing_espOK (d : Decls) (s : ApplicationClass) (env : Tick) :
    (loopPing d s env)._espOK = s._espOK := by
  unfold loopPing
  split_ifs <;> rfl

theorem loopJobs_trace (s : ApplicationClass) :
    (loopJobs s).trace.filter Ev.isJobHook =
      s.trace.filter Ev.isJobHook ++ hookOrder s._currentJob s._nextJob := by
  unfold loopJobs
  cases hn : s._nextJob <;> cases hc : s._currentJob <;>
    simp [hookOrder, ApplicationClass.emit, hc, Ev.isJobHook, List.filter_append, List.filter_cons]

theorem loopJobs_extends (s : ApplicationClass) : Extends Ev.isJobSide s (loopJobs s) := by
  unfold loopJobs
  cases hn : s._nextJob <;> cases hc : s._currentJob <;>
    simp [Extends, ApplicationClass.emit, hc, Ev.isJobSide]

theorem loopJobs_jobs (s : ApplicationClass) :
    (loopJobs s)._currentJob = (match s._nextJob with
      | some next => some next
      | none => s._currentJob) ∧ (loopJobs s)._nextJob = none := by
  unfold loopJobs
  cases hn : s._nextJob <;> cases hc : s._currentJob <;> simp [ApplicationClass.emit, hc, hn]

theorem loopJobs_fields (s : ApplicationClass) :
    (loopJobs s)._currentScene = s._currentScene ∧ (loopJobs s)._nextScene = s._nextScene ∧
    (loopJobs s)._espOK = s._espOK := by
  unfold loopJobs
  cases hn : s._nextJob <;> cases hc : s._currentJob <;> simp [ApplicationClass.emit, hc]

theorem loopSceneSwitch_extends (s : ApplicationClass) :
    Extends Ev.isSceneSide s (loopSceneSwitch s) := by
  unfold loopSceneSwitch
  cases hn : s._nextScene <;> cases hc : s._currentScene <;>
    simp [Extends, ApplicationClass.emit, hc, Ev.isSceneSide]

theorem loopSceneSwitch_fields (s : ApplicationClass) :
    (loopSceneSwitch s)._currentJob = s._currentJob ∧ (loopSceneSwitch s)._nextJob = s._nextJob ∧
    (loopSceneSwitch s)._espOK = s._espOK := by
  unfold loopSceneSwitch
  cases hn : s._nextScene <;> cases hc : s._currentScene <;> simp [ApplicationClass.emit, hc]

theorem handleTouches_extends (s : ApplicationClass) (env : Tick) :
    Extends Ev.isSceneSide s (handleTouches s env) := by
  unfold handleTouches
  dsimp only
  repeat' split
  all_goals simp [Extends, ApplicationClass.emit, Ev.isSceneSide]

theorem handleTouches_fields (s : ApplicationClass) (env : Tick) :
    (handleTouches s env)._currentJob = s._currentJob ∧
    (handleTouches s env)._nextJob = s._nextJob ∧
    (handleTouches s env)._currentScene = s._currentScene ∧
    (handleTouches s env)._nextScene = s._nextScene ∧
    (handleTouches s env)._espOK = s._espOK ∧
    (handleTouches s env)._firstSceneLoop = s._firstSceneLoop := by
  unfold handleTouches
  dsimp only
  repeat' split
  all_goals simp [ApplicationClass.emit]

theorem Extends.step {p : Ev → Bool} {s t : ApplicationClass} (e : Ev) (hp : p e = true)
    (h : Extends p s t) : Extends p s (t.emit e) :=
  h.trans (Extends.emit t e hp)

theorem Extends.step_if {p : Ev → Bool} {s t : ApplicationClass} (c : Prop) [Decidable c]
    (e : Ev) (hp : p e = true) (h : Extends p s t) :
    Extends p s (if c then t.emit e else t) := by
  split_ifs
  · exact h.step e hp
  · exact h

theorem Extends.set_first {p : Ev → Bool} {s t : ApplicationClass} (b : Bool)
    (h : Extends p s t) : Extends p s { t with _firstSceneLoop := b } :=
  h.of_trace_eq rfl

theorem loopScene_extends (s : ApplicationClass) (env : Tick) :
    Extends Ev.isSceneSide s (loopScene s env) := by
  unfold loopScene
  cases hc : s._currentScene with
  | none => exact Extends.refl _ s
  | some sc =>
    dsimp only
    apply Extends.set_first
    apply Extends.step_if _ _ rfl
    apply Extends.step_if _ _ rfl
    apply Extends.step _ rfl
    apply Extends.step _ rfl
    apply Extends.step_if _ _ rfl
    apply Extends.step _ rfl
    refine Extends.trans ?_ (handleTouches_extends _ env)
    split_ifs
    · exact ((Extends.refl _ s).step _ rfl |>.step _ rfl).step _ rfl
    · exact Extends.refl _ s

theorem loopScene_fields (s : ApplicationClass) (env : Tick) :
    (loopScene s env)._currentJob = s._currentJob ∧
    (loopScene s env)._nextJob = s._nextJob ∧
    (loopScene s env)._currentScene = s._currentScene ∧
    (loopScene s env)._nextScene = s._nextScene ∧
    (loopScene s env)._espOK = s._espOK := by
  unfold loopScene
  cases hc : s._currentScene with
  | none => simp [hc]
  | some sc =>
    dsimp only
    split_ifs <;> simp [ApplicationClass.emit, handleTouches_fields, hc]

theorem isSceneSide_not_jobHook (e : Ev) (h : e.isSceneSide = true) : e.isJobHook = false := by
  cases e <;> simp_all [Ev.isSceneSide, Ev.isJobHook]

theorem isService_not_jobHook (e : Ev) (h : e.isService = true) : e.isJobHook = false := by
  cases e <;> simp_all [Ev.isService, Ev.isJobHook]

theorem isPingRequest_not_jobHook (e : Ev) (h : e.isPingRequest = true) :
    e.isJobHook = false := by
  cases e <;> simp_all [Ev.isPingRequest, Ev.isJobHook]

theorem isSceneSide_not_ping (e : Ev) (h : e.isSceneSide = true) : e.isPingRequest = false := by
  cases e <;> simp_all [Ev.isSceneSide, Ev.isPingRequest]

theorem isService_not_ping (e : Ev) (h : e.isService = true) : e.isPingRequest = false := by
  cases e <;> simp_all [Ev.isService, Ev.isPingRequest]

theorem isJobSide_not_ping (e : Ev) (h : e.isJobSide = true) : e.isPingRequest = false := by
  cases e <;> simp_all [Ev.isJobSide, Ev.isPingRequest]

theorem emitted_filter {p : Ev → Bool} {s t : ApplicationClass} (q : Ev → Bool) (evs : List Ev)
    (h : Extends p s t) (hq : t.trace.filter q = s.trace.filter q ++ evs) :
    (emitted s t).filter q = evs := by
  obtain ⟨a, ha, _⟩ := h
  rw [emitted_append s t a ha]
  rw [ha, List.filter_append] at hq
  exact List.append_cancel_left hq

theorem pushScene_fields (d : Decls) (s : ApplicationClass) (scene : SceneController)
    (cancelModal : Bool) :
    (pushScene d s scene cancelModal)._currentJob = s._currentJob ∧
    (pushScene d s scene cancelModal)._nextJob = s._nextJob ∧
    (pushScene d s scene cancelModal)._currentScene = s._currentScene ∧
    (pushScene d s scene cancelModal)._espOK = s._espOK ∧
    (pushScene d s scene cancelModal).sdFiles = s.sdFiles := by
  unfold pushScene
  split
  · split <;> simp
  · simp

theorem pushScene_lastPing (d : Decls) (s : ApplicationClass) (scene : SceneController)
    (cancelModal : Bool) : (pushScene d s scene cancelModal)._lastESPPing = s._lastESPPing := by
  unfold pushScene
  split
  · split <;> rfl
  · rfl

/-! ## Facts on `runTask` -/

theorem runTask_current (d : Decls) (s : ApplicationClass) (header : CommHeader)
    (data : Nat → Nat) (dataSize : Nat) (out : Out) :
    (runTask d s header data dataSize out).app._currentJob = s._currentJob ∧
    (runTask d s header data dataSize out).app._currentScene = s._currentScene := by
  unfold runTask
  repeat' split
  all_goals dsimp only
  all_goals (try split_ifs)
  all_goals (try split)
  all_goals simp [pushScene_fields, resetESP, pushJob, ApplicationClass.emit]

theorem runTask_extends (d : Decls) (s : ApplicationClass) (header : CommHeader)
    (data : Nat → Nat) (dataSize : Nat) (out : Out) :
    Extends Ev.notPing s (runTask d s header data dataSize out).app := by
  unfold runTask
  repeat' split
  all_goals dsimp only
  all_goals (try split_ifs)
  all_goals (try split)
  all_goals simp [Extends, pushScene_trace, resetESP_trace, pushJob, ApplicationClass.emit,
    Ev.notPing, Ev.isPingRequest]

theorem runTask_taskSide (d : Decls) (s : ApplicationClass) (header : CommHeader)
    (data : Nat → Nat) (dataSize : Nat) (out : Out) :
    Extends Ev.isTaskSide s (runTask d s header data dataSize out).app := by
  unfold runTask
  repeat' split
  all_goals dsimp only
  all_goals (try split_ifs)
  all_goals (try split)
  all_goals simp [Extends, pushScene_trace, resetESP_trace, pushJob, ApplicationClass.emit,
    Ev.isTaskSide]

theorem runTask_espOK (d : Decls) (s : ApplicationClass) (header : CommHeader)
    (data : Nat → Nat) (dataSize : Nat) (out : Out) (h : s._espOK = true) :
    (runTask d s header data dataSize out).app._espOK = true := by
  unfold runTask
  repeat' split
  all_goals dsimp only
  all_goals (try split_ifs)
  all_goals (try split)
  all_goals simp [pushScene_fields, resetESP, pushJob, ApplicationClass.emit, h]

theorem runTask_espOK_kept (d : Decls) (s : ApplicationClass) (header : CommHeader)
    (data : Nat → Nat) (dataSize : Nat) (out : Out)
    (h : (Call.runTask header data dataSize out).isConfirmingPing = false) :
    (runTask d s header data dataSize out).app._espOK = s._espOK := by
  simp only [Call.isConfirmingPing, Bool.and_eq_false_iff, Bool.or_eq_false_iff, beq_eq_false_iff_ne,
    ne_eq] at h
  unfold runTask
  repeat' split
  all_goals dsimp only
  all_goals (try split_ifs)
  all_goals (try split)
  all_goals simp_all [pushScene_fields, resetESP, pushJob, ApplicationClass.emit]

theorem runTask_lastPing (d : Decls) (s : ApplicationClass) (header : CommHeader)
    (data : Nat → Nat) (dataSize : Nat) (out : Out) :
    (runTask d s header data dataSize out).app._lastESPPing = s._lastESPPing := by
  unfold runTask
  repeat' split
  all_goals dsimp only
  all_goals (try split_ifs)
  all_goals (try split)
  all_goals simp [pushScene_lastPing, resetESP, pushJob, ApplicationClass.emit]

theorem runTask_nextJob (d : Decls) (s : ApplicationClass) (f : Frame) :
    (runTask d s f.header f.data f.dataSize f.out).app._nextJob = s._nextJob ∨
    ∃ k, f.queuedJob d = some k ∧
      (runTask d s f.header f.data f.dataSize f.out).app._nextJob = some k := by
  unfold runTask Frame.queuedJob
  repeat' split
  all_goals dsimp only
  all_goals (try split_ifs)
  all_goals (try split)
  all_goals simp_all [pushScene_fields, resetESP, pushJob, ApplicationClass.emit]

theorem queuedJob_of_not_mayQueueJob (d : Decls) (f : Frame) (h : f.mayQueueJob = false) :
    f.queuedJob d = none := by
  unfold Frame.queuedJob
  simp only [Frame.mayQueueJob, Bool.and_eq_false_iff, beq_eq_false_iff_ne, ne_eq] at h
  rw [if_neg]
  intro hc
  rcases h with h | h
  · exact h hc.1
  · exact h hc.2

theorem runTask_nextJob_kept (d : Decls) (s : ApplicationClass) (f : Frame)
    (h : f.mayQueueJob = false) :
    (runTask d s f.header f.data f.dataSize f.out).app._nextJob = s._nextJob := by
  rcases runTask_nextJob d s f with hk | ⟨k, hq, _⟩
  · exact hk
  · rw [queuedJob_of_not_mayQueueJob d f h] at hq
    exact absurd hq (by simp)

theorem isTaskSide_not_jobHook (e : Ev) (h : e.isTaskSide = true) : e.isJobHook = false := by
  cases e <;> simp_all [Ev.isTaskSide, Ev.isJobHook]

theorem isTaskSide_not_ping (e : Ev) (h : e.isTaskSide = true) : e.isPingRequest = false := by
  cases e <;> simp_all [Ev.isTaskSide, Ev.isPingRequest]

theorem isServiceSide_not_ping (e : Ev) (h : e.isServiceSide = true) :
    e.isPingRequest = false := by
  simp only [Ev.isServiceSide, Bool.or_eq_true] at h
  rcases h with h | h
  · exact isService_not_ping e h
  · exact isTaskSide_not_ping e h

theorem espProcess_cons (d : Decls) (s : ApplicationClass) (f : Frame) (fs : List Frame) :
    espProcess d s (f :: fs) =
      espProcess d (runTask d s f.header f.data f.dataSize f.out).app fs := rfl

theorem espProcess_taskSide (d : Decls) :
    ∀ (inbound : List Frame) (s : ApplicationClass),
      Extends Ev.isTaskSide s (espProcess d s inbound) := by
  intro inbound
  induction inbound with
  | nil => intro s; exact Extends.refl _ s
  | cons f fs ih =>
    intro s
    rw [espProcess_cons]
    exact (runTask_taskSide d s f.header f.data f.dataSize f.out).trans (ih _)

theorem espProcess_current (d : Decls) :
    ∀ (inbound : List Frame) (s : ApplicationClass),
      (espProcess d s inbound)._currentJob = s._currentJob ∧
      (espProcess d s inbound)._currentScene = s._currentScene := by
  intro inbound
  induction inbound with
  | nil => intro s; exact ⟨rfl, rfl⟩
  | cons f fs ih =>
    intro s
    rw [espProcess_cons, (ih _).1, (ih _).2]
    exact runTask_current d s f.header f.data f.dataSize f.out

theorem espProcess_lastPing (d : Decls) :
    ∀ (inbound : List Frame) (s : ApplicationClass),
      (espProcess d s inbound)._lastESPPing = s._lastESPPing := by
  intro inbound
  induction inbound with
  | nil => intro s; rfl
  | cons f fs ih =>
    intro s
    rw [espProcess_cons, ih, runTask_lastPing]

theorem espProcess_espOK (d : Decls) :
    ∀ (inbound : List Frame) (s : ApplicationClass), s._espOK = true →
      (espProcess d s inbound)._espOK = true := by
  intro inbound
  induction inbound with
  | nil => intro s h; exact h
  | cons f fs ih =>
    intro s h
    rw [espProcess_cons]
    exact ih _ (runTask_espOK d s f.header f.data f.dataSize f.out h)

theorem espProcess_espOK_kept (d : Decls) :
    ∀ (inbound : List Frame) (s : ApplicationClass),
      (∀ f ∈ inbound, f.isConfirmingPing = false) →
      (espProcess d s inbound)._espOK = s._espOK := by
  intro inbound
  induction inbound with
  | nil => intro s _; rfl
  | cons f fs ih =>
    intro s h
    rw [espProcess_cons, ih _ (fun x hx => h x (List.mem_cons_of_mem _ hx))]
    exact runTask_espOK_kept d s f.header f.data f.dataSize f.out
      (by simpa [Call.isConfirmingPing, Frame.isConfirmingPing] using h f (List.mem_cons_self _ _))

theorem espProcess_nextJob_kept (d : Decls) :
    ∀ (inbound : List Frame) (s : ApplicationClass),
      (∀ f ∈ inbound, f.mayQueueJob = false) →
      (espProcess d s inbound)._nextJob = s._nextJob := by
  intro inbound
  induction inbound with
  | nil => intro s _; rfl
  | cons f fs ih =>
    intro s h
    rw [espProcess_cons, ih _ (fun x hx => h x (List.mem_cons_of_mem _ hx))]
    exact runTask_nextJob_kept d s f (h f (List.mem_cons_self _ _))

theorem loopServices_extends (d : Decls) (s : ApplicationClass) (env : Tick) :
    Extends Ev.isServiceSide s (loopServices d s env) := by
  unfold loopServices
  apply Extends.step _ rfl
  apply Extends.step _ rfl
  apply Extends.step _ rfl
  refine Extends.trans (Extends.emit s .espProcess rfl) ?_
  exact (espProcess_taskSide d env.inbound _).mono (fun e h => by simp [Ev.isServiceSide, h])

theorem loopServices_current (d : Decls) (s : ApplicationClass) (env : Tick) :
    (loopServices d s env)._currentJob = s._currentJob ∧
    (loopServices d s env)._currentScene = s._currentScene := by
  have h := espProcess_current d env.inbound (s.emit .espProcess)
  exact ⟨h.1, h.2⟩

theorem loopServices_lastPing (d : Decls) (s : ApplicationClass) (env : Tick) :
    (loopServices d s env)._lastESPPing = s._lastESPPing :=
  espProcess_lastPing d env.inbound (s.emit .espProcess)

theorem loopServices_espOK (d : Decls) (s : ApplicationClass) (env : Tick)
    (h : s._espOK = true) : (loopServices d s env)._espOK = true :=
  espProcess_espOK d env.inbound (s.emit .espProcess) h

theorem loopServices_espOK_kept (d : Decls) (s : ApplicationClass) (env : Tick)
    (h : ∀ f ∈ env.inbound, f.isConfirmingPing = false) :
    (loopServices d s env)._espOK = s._espOK :=
  espProcess_espOK_kept d env.inbound (s.emit .espProcess) h

theorem loopServices_nextJob_kept (d : Decls) (s : ApplicationClass) (env : Tick)
    (h : ∀ f ∈ env.inbound, f.mayQueueJob = false) :
    (loopServices d s env)._nextJob = s._nextJob :=
  espProcess_nextJob_kept d env.inbound (s.emit .espProcess) h

theorem handoff_jobs (t : ApplicationClass) (env : Tick) :
    (loopScene (loopSceneSwitch (loopJobs t)) env)._currentJob = (match t._nextJob with
      | some next => some next
      | none => t._currentJob) ∧
    (loopScene (loopSceneSwitch (loopJobs t)) env)._nextJob = none := by
  simp only [(loopScene_fields _ env).1, (loopScene_fields _ env).2.1,
    (loopSceneSwitch_fields _).1, (loopSceneSwitch_fields _).2.1, loopJobs_jobs, and_self]

theorem handoff_hooks (t : ApplicationClass) (env : Tick) :
    (loopScene (loopSceneSwitch (loopJobs t)) env).trace.filter Ev.isJobHook =
      t.trace.filter Ev.isJobHook ++ hookOrder t._currentJob t._nextJob := by
  rw [(loopScene_extends _ env).filter_eq isSceneSide_not_jobHook,
    (loopSceneSwitch_extends _).filter_eq isSceneSide_not_jobHook, loopJobs_trace]

theorem pendingJob_kept (d : Decls) (s : ApplicationClass) (env : Tick)
    (h : ∀ f ∈ env.inbound, f.mayQueueJob = false) : pendingJob d s env = s._nextJob := by
  unfold pendingJob
  rw [loopServices_nextJob_kept d _ env h, (loopPing_jobs d s env).2]

theorem loop_jobs (d : Decls) (s : ApplicationClass) (env : Tick) :
    (loop d s env)._currentJob = (match pendingJob d s env with
      | some next => some next
      | none => s._currentJob) ∧ (loop d s env)._nextJob = none := by
  unfold loop
  rw [(handoff_jobs _ env).1, (handoff_jobs _ env).2, (loopServices_current d _ env).1,
    (loopPing_jobs d s env).1]
  exact ⟨rfl, rfl⟩

theorem loop_espOK (d : Decls) (s : ApplicationClass) (env : Tick) (h : s._espOK = true) :
    (loop d s env)._espOK = true := by
  unfold loop
  rw [(loopScene_fields _ env).2.2.2.2, (loopSceneSwitch_fields _).2.2, (loopJobs_fields _).2.2]
  exact loopServices_espOK d _ env (by rw [loopPing_espOK, h])

theorem loop_espOK_kept (d : Decls) (s : ApplicationClass) (env : Tick)
    (h : ∀ f ∈ env.inbound, f.isConfirmingPing = false) : (loop d s env)._espOK = s._espOK := by
  unfold loop
  rw [(loopScene_fields _ env).2.2.2.2, (loopSceneSwitch_fields _).2.2, (loopJobs_fields _).2.2,
    loopServices_espOK_kept d _ env h, loopPing_espOK]

theorem loop_pings (d : Decls) (s : ApplicationClass) (env : Tick) :
    (loop d s env).trace.filter Ev.isPingRequest =
      (loopPing d s env).trace.filter Ev.isPingRequest := by
  unfold loop
  rw [(loopScene_extends _ env).filter_eq isSceneSide_not_ping,
    (loopSceneSwitch_extends _).filter_eq isSceneSide_not_ping,
    (loopJobs_extends _).filter_eq isJobSide_not_ping,
    (loopServices_extends d _ env).filter_eq isServiceSide_not_ping]

theorem loop_extends (d : Decls) (s : ApplicationClass) (env : Tick) :
    Extends Ev.isLoopSide s (loop d s env) := by
  unfold loop
  refine ((((loopPing_extends d s env).mono ?_).trans
    ((loopServices_extends d _ env).mono ?_)).trans ((loopJobs_extends _).mono ?_)).trans
    (((loopSceneSwitch_extends _).trans (loopScene_extends _ env)).mono ?_)
  all_goals intro e h; simp [Ev.isLoopSide, h]

/-- C4: `pushJob(J)` changes the pending next-job slot and nothing else: the
current job and every other member are as before and no collaborator is
called, so no job hook runs.  The current job changes only in `loop`
(`pushScene` and `runTask` leave it alone), and the pass of `loop` that
follows the push, when no frame arrives during it, makes `J` the current
job.  The current job is a single slot, so at most one job is current in
every state. -/
theorem pushJob_only_queues (d : Decls) (s : ApplicationClass) (J : BackgroundJob) :
    pushJob s J = { s with _nextJob := some J } ∧
    (pushJob s J)._nextJob = some J ∧
    (pushJob s J)._currentJob = s._currentJob ∧
    emitted s (pushJob s J) = [] ∧
    (∀ env : Tick, (loop d (pushJob s J) { env with inbound := [] })._currentJob = some J ∧
      (loop d (pushJob s J) { env with inbound := [] })._nextJob = none) ∧
    (∀ scene cancelModal, (pushScene d s scene cancelModal)._currentJob = s._currentJob) ∧
    (∀ header data dataSize out,
      (runTask d s header data dataSize out).app._currentJob = s._currentJob) := by
  refine ⟨rfl, rfl, rfl, by simp [emitted, pushJob], ?_, ?_, ?_⟩
  · intro env
    have h := loop_jobs d (pushJob s J) { env with inbound := [] }
    rw [pendingJob_kept d _ _ (by simp)] at h
    simpa [pushJob] using h
  · intro scene cancelModal
    exact (pushScene_fields d s scene cancelModal).1
  · intro header data dataSize out
    exact (runTask_current d s header data dataSize out).1

/-! ## C2: lifecycle of one job -/

theorem afterStart_of_all_loop (rest : List Hook) (h : rest.all (fun h => h == .loop) = true) :
    afterStart rest = true := by
  induction rest with
  | nil => rfl
  | cons a rest ih =>
    simp only [List.all_cons, Bool.and_eq_true, beq_iff_eq] at h
    obtain ⟨ha, hr⟩ := h
    subst ha
    simpa [afterStart] using ih hr

theorem afterStart_append_end (rest : List Hook) (h : rest.all (fun h => h == .loop) = true) :
    afterStart (rest ++ [.onWillEnd]) = true := by
  induction rest with
  | nil => rfl
  | cons a rest ih =>
    simp only [List.all_cons, Bool.and_eq_true, beq_iff_eq] at h
    obtain ⟨ha, hr⟩ := h
    subst ha
    simpa [afterStart] using ih hr

theorem lifecycle_of_running (h : List Hook) (hr : running h = true) : lifecycle h = true := by
  cases h with
  | nil => rfl
  | cons a rest =>
    cases a <;> simp [running] at hr
    exact afterStart_of_all_loop rest (by simpa using hr)

theorem running_append_loop (h : List Hook) (hr : running h = true) :
    running (h ++ [.loop]) = true := by
  cases h with
  | nil => simp [running] at hr
  | cons a rest =>
    cases a <;> simp [running] at hr
    simpa [running] using hr

theorem finished_append_end (h : List Hook) (hr : running h = true) :
    finished (h ++ [.onWillEnd]) = true := by
  cases h with
  | nil => simp [running] at hr
  | cons a rest =>
    cases a <;> simp [running] at hr
    simpa [finished] using hr

theorem lifecycle_of_finished (h : List Hook) (hf : finished h = true) : lifecycle h = true := by
  cases h with
  | nil => rfl
  | cons a rest =>
    cases a <;> simp [finished] at hf
    obtain ⟨h1, h2⟩ := hf
    have hsplit := List.dropLast_append_getLast? Hook.onWillEnd
      (by simpa using h2 : Hook.onWillEnd ∈ rest.getLast?)
    rw [← hsplit]
    exact afterStart_append_end _ (by simpa using h1)

theorem hookTrace_filter (job : BackgroundJob) (l : List Ev) :
    hookTrace job (l.filter Ev.isJobHook) = hookTrace job l := by
  unfold hookTrace
  rw [List.filterMap_filter]
  congr 1
  funext e
  cases e <;> simp [hookOf, Ev.isJobHook]

theorem hookTrace_of_extends {p : Ev → Bool} {s t : ApplicationClass} (job : BackgroundJob)
    (h : Extends p s t) (hp : ∀ e, p e = true → e.isJobHook = false) :
    hookTrace job t.trace = hookTrace job s.trace := by
  rw [← hookTrace_filter job t.trace, h.filter_eq hp, hookTrace_filter]

theorem hookTrace_handoff (job : BackgroundJob) (t : ApplicationClass) (env : Tick) :
    hookTrace job (loopScene (loopSceneSwitch (loopJobs t)) env).trace =
      hookTrace job t.trace ++ hookTrace job (hookOrder t._currentJob t._nextJob) := by
  rw [← hookTrace_filter job (loopScene (loopSceneSwitch (loopJobs t)) env).trace, handoff_hooks]
  unfold hookTrace
  rw [List.filterMap_append]
  congr 1
  exact hookTrace_filter job t.trace

theorem JobInv_of_fields {job : BackgroundJob} {s t : ApplicationClass}
    {later : List BackgroundJob} (h : JobInv job s later)
    (hc : t._currentJob = s._currentJob) (hn : t._nextJob = s._nextJob)
    (ht : hookTrace job t.trace = hookTrace job s.trace) : JobInv job t later := by
  unfold JobInv at *
  rw [hc, hn, ht]
  exact h

theorem JobInv_weaken {job : BackgroundJob} {s : ApplicationClass}
    (first later : List BackgroundJob) (h : JobInv job s (first ++ later)) :
    JobInv job s later := by
  unfold JobInv at *
  simp only [List.mem_append, not_or] at h
  rcases h with ⟨h1, h2, h3, h4⟩ | ⟨h1, h2, h3, h4⟩ | ⟨h1, h2, h3⟩
  · exact Or.inl ⟨h1, h2, h3, h4.2⟩
  · exact Or.inr (Or.inl ⟨h1, h2, h3, h4.2⟩)
  · exact Or.inr (Or.inr ⟨h1, h2, fun e => (h3 e).2⟩)

theorem JobInv_handoff (job : BackgroundJob) (s : ApplicationClass) (env : Tick)
    (later : List BackgroundJob) (h : JobInv job s later) :
    JobInv job (loopScene (loopSceneSwitch (loopJobs s)) env) later := by
  unfold JobInv at *
  rw [hookTrace_handoff, (handoff_jobs s env).1, (handoff_jobs s env).2]
  cases hc : s._currentJob with
  | none =>
    cases hn : s._nextJob with
    | none => simpa [hc, hn, hookOrder, hookTrace] using h
    | some N =>
      by_cases hN : N = job
      · subst hN
        simp [hc, hn] at h
        left
        rw [h.1]
        simp [hookOrder, hookTrace, hookOf, running, h.2]
      · simp [hc, hn, hN] at h
        simp [hookOrder, hookTrace, hookOf, hN]
        simpa [hookTrace, hN] using h
  | some C =>
    cases hn : s._nextJob with
    | none =>
      by_cases hC : C = job
      · subst hC
        simp [hc, hn] at h
        left
        simp [hookOrder, hookOf, hookTrace]
        have := running_append_loop _ h.1
        simp [hookTrace] at this
        exact ⟨this, h.2⟩
      · simp [hc, hn, hC] at h
        simp [hookOrder, hookTrace, hookOf, hC]
        simpa [hookTrace] using h
    | some N =>
      by_cases hC : C = job
      · subst hC
        simp [hc, hn] at h
        have hN : N ≠ C := h.2.1
        right; left
        simp [hookOrder, hookOf, hookTrace, hN]
        have := finished_append_end _ h.1
        simp [hookTrace] at this
        exact ⟨this, h.2.2⟩
      · by_cases hN : N = job
        · subst hN
          simp [hc, hn, hC] at h
          left
          rw [h.1]
          simp [hookOrder, hookTrace, hookOf, hC, running, h.2]
        · simp [hc, hn, hC, hN] at h
          simp [hookOrder, hookTrace, hookOf, hN, hC]
          simpa [hookTrace] using h

theorem JobInv_pushJob (job k : BackgroundJob) (s : ApplicationClass)
    (later : List BackgroundJob) (hk : k ∉ later) (h : JobInv job s (k :: later)) :
    JobInv job (pushJob s k) later := by
  unfold JobInv at *
  simp only [pushJob, List.mem_cons, not_or] at h ⊢
  rcases h with ⟨h1, h2, _, h4, h5⟩ | ⟨h1, h2, _, h4, h5⟩ | ⟨h1, h2, _⟩
  · exact Or.inl ⟨h1, h2, fun e => h4 (Option.some.inj e).symm, h5⟩
  · exact Or.inr (Or.inl ⟨h1, h2, fun e => h4 (Option.some.inj e).symm, h5⟩)
  · refine Or.inr (Or.inr ⟨h1, h2, fun e => ?_⟩)
    rw [← Option.some.inj e]
    exact hk

theorem JobInv_runTask (d : Decls) (job : BackgroundJob) (s : ApplicationClass) (f : Frame)
    (later : List BackgroundJob) (hnd : ((f.queuedJob d).toList ++ later).Nodup)
    (h : JobInv job s ((f.queuedJob d).toList ++ later)) :
    JobInv job (runTask d s f.header f.data f.dataSize f.out).app later := by
  have hc := (runTask_current d s f.header f.data f.dataSize f.out).1
  have ht := hookTrace_of_extends job (runTask_taskSide d s f.header f.data f.dataSize f.out)
    isTaskSide_not_jobHook
  rcases runTask_nextJob d s f with hn | ⟨k, hq, hn⟩
  · exact JobInv_of_fields (JobInv_weaken _ later h) hc hn ht
  · rw [hq] at h hnd
    simp only [Option.toList_some, List.singleton_append, List.nodup_cons] at h hnd
    exact JobInv_of_fields (JobInv_pushJob job k s later hnd.1 h) hc hn ht

theorem JobInv_espProcess (d : Decls) (job : BackgroundJob) :
    ∀ (inbound : List Frame) (s : ApplicationClass) (later : List BackgroundJob),
      (inbound.filterMap (Frame.queuedJob d) ++ later).Nodup →
      JobInv job s (inbound.filterMap (Frame.queuedJob d) ++ later) →
      JobInv job (espProcess d s inbound) later := by
  intro inbound
  induction inbound with
  | nil => intro s later _ h; exact h
  | cons f fs ih =>
    intro s later hnd h
    have hsplit : (f :: fs).filterMap (Frame.queuedJob d) ++ later =
        (f.queuedJob d).toList ++ (fs.filterMap (Frame.queuedJob d) ++ later) := by
      cases hq : f.queuedJob d <;> simp [List.filterMap_cons, hq]
    rw [hsplit] at hnd h
    rw [espProcess_cons]
    apply ih _ later (List.Nodup.of_append_right hnd)
    exact JobInv_runTask d job s f _ hnd h

theorem JobInv_loop (d : Decls) (job : BackgroundJob) (s : ApplicationClass) (env : Tick)
    (later : List BackgroundJob)
    (hnd : (env.inbound.filterMap (Frame.queuedJob d) ++ later).Nodup)
    (h : JobInv job s (env.inbound.filterMap (Frame.queuedJob d) ++ later)) :
    JobInv job (loop d s env) later := by
  unfold loop
  apply JobInv_handoff
  have h0 : JobInv job (loopPing d s env)
      (env.inbound.filterMap (Frame.queuedJob d) ++ later) :=
    JobInv_of_fields h (loopPing_jobs d s env).1 (loopPing_jobs d s env).2
      (hookTrace_of_extends job (loopPing_extends d s env) isPingRequest_not_jobHook)
  have he : Extends Ev.isService (loopPing d s env) ((loopPing d s env).emit .espProcess) :=
    Extends.emit _ _ rfl
  have h1 : JobInv job ((loopPing d s env).emit .espProcess)
      (env.inbound.filterMap (Frame.queuedJob d) ++ later) :=
    JobInv_of_fields h0 rfl rfl (hookTrace_of_extends job he isService_not_jobHook)
  have h2 := JobInv_espProcess d job env.inbound _ later hnd h1
  unfold loopServices
  refine JobInv_of_fields h2 rfl rfl ?_
  exact hookTrace_of_extends job
    (((Extends.refl Ev.isService _).step .printrLoop rfl |>.step .animatorUpdate rfl).step
      .statusLedLoop rfl) isService_not_jobHook

theorem run_JobInv (d : Decls) (job : BackgroundJob) :
    ∀ (calls : List Call) (s : ApplicationClass),
      (∀ c ∈ calls, c.isJobEngineCall = true) → (pushedJobs d calls).Nodup →
      JobInv job s (pushedJobs d calls) → JobInv job (run d s calls) [] := by
  intro calls
  induction calls with
  | nil => intro s _ _ h; exact h
  | cons c cs ih =>
    intro s hall hnd h
    have hcs : ∀ c ∈ cs, c.isJobEngineCall = true := fun x hx => hall x (List.mem_cons_of_mem _ hx)
    have hc := hall c (List.mem_cons_self _ _)
    show JobInv job (run d (step d s c) cs) []
    cases c with
    | loop env =>
      simp only [pushedJobs] at hnd h
      exact ih _ hcs (List.Nodup.of_append_right hnd) (JobInv_loop d job s env _ hnd h)
    | pushJob k =>
      simp only [pushedJobs, List.nodup_cons] at hnd h
      exact ih _ hcs hnd.2 (JobInv_pushJob job k s _ hnd.1 h)
    | pushScene scene cancelModal => simp [Call.isJobEngineCall] at hc
    | runTask header data dataSize out => simp [Call.isJobEngineCall] at hc

/-- C2: in every run made of `pushJob` and `loop` calls, started from the
constructed application, in which no job is pushed twice (the jobs queued by
`FileOpenForWrite` requests handed over during a tick count as pushed), the
hooks called on any one job are: nothing, or one `onWillStart`, then `loop`
calls, then at most one `onWillEnd` after which nothing follows. -/
theorem job_hooks_lifecycle (d : Decls) (sdFiles : List String) (calls : List Call)
    (hcalls : ∀ c ∈ calls, c.isJobEngineCall = true) (hnodup : (pushedJobs d calls).Nodup)
    (job : BackgroundJob) :
    lifecycle (hookTrace job (run d (ApplicationClass.new sdFiles) calls).trace) = true := by
  have h0 : JobInv job (ApplicationClass.new sdFiles) (pushedJobs d calls) :=
    Or.inr (Or.inr ⟨by simp [ApplicationClass.new], rfl, by simp [ApplicationClass.new]⟩)
  rcases run_JobInv d job calls _ hcalls hnodup h0 with h | h | h
  · exact lifecycle_of_running _ h.2.1
  · exact lifecycle_of_finished _ h.2.1
  · rw [h.2.1]
    rfl

/-- Witness of C2: job 5 is pushed, ticked twice and then replaced by job 6;
its hooks are `onWillStart`, `loop`, `loop`, `onWillEnd`. -/
theorem job_hooks_lifecycle_witness :
    hookTrace (.Other 5) (run sampleDecls (ApplicationClass.new []) sampleJobCalls).trace =
        [.onWillStart, .loop, .loop, .onWillEnd] ∧
    lifecycle (hookTrace (.Other 5)
      (run sampleDecls (ApplicationClass.new []) sampleJobCalls).trace) = true :=
  ⟨by decide, job_hooks_lifecycle sampleDecls [] sampleJobCalls (by decide) (by decide) (.Other 5)⟩

/-- Witness of the amended C1: a claiming scene gets the frame, a claiming job
gets it when no scene is current, and with neither only the built-in chain
runs. -/
theorem runTask_priority_witness :
    runTask sampleDecls sampleBusy pingRequest (bufferOf []) 0 (sampleOut false true) =
      { app := sampleBusy.emit (.sceneRunTask (.Other 1) pingRequest)
        out := (sampleDecls.sceneRunTask (.Other 1) pingRequest (bufferOf []) 0
          (sampleOut false true)).1
        ret := (sampleDecls.sceneRunTask (.Other 1) pingRequest (bufferOf []) 0
          (sampleOut false true)).2 } ∧
    runTask sampleDecls { sampleBusy with _currentScene := none } pingRequest (bufferOf []) 0
        (sampleOut false true) =
      { app := { sampleBusy with _currentScene := none }.emit (.jobRunTask (.Other 2) pingRequest)
        out := (sampleDecls.jobRunTask (.Other 2) pingRequest (bufferOf []) 0
          (sampleOut false true)).1
        ret := (sampleDecls.jobRunTask (.Other 2) pingRequest (bufferOf []) 0
          (sampleOut false true)).2 } ∧
    ∀ e ∈ emitted (ApplicationClass.new [])
        (runTask sampleDecls (ApplicationClass.new []) pingRequest (bufferOf []) 0
          (sampleOut false true)).app, e.isDelegation = false :=
  ⟨(runTask_priority sampleDecls sampleBusy pingRequest (bufferOf []) 0
      (sampleOut false true)).1 (.Other 1) rfl (by decide),
   (runTask_priority sampleDecls { sampleBusy with _currentScene := none } pingRequest
      (bufferOf []) 0 (sampleOut false true)).2.1 (.Other 2) (by decide) rfl (by decide),
   (runTask_priority sampleDecls (ApplicationClass.new []) pingRequest (bufferOf []) 0
      (sampleOut false true)).2.2 (by decide) (by decide)⟩

/-! ## Facts on runs -/

theorem pushScene_extends (p : Ev → Bool) (d : Decls) (s : ApplicationClass)
    (scene : SceneController) (cancelModal : Bool) :
    Extends p s (pushScene d s scene cancelModal) :=
  (Extends.refl p s).of_trace_eq (pushScene_trace d s scene cancelModal)

theorem loop_extends_notPing (d : Decls) (s : ApplicationClass) (env : Tick)
    (h : s._espOK = true) : Extends Ev.notPing s (loop d s env) := by
  have hp : loopPing d s env = s := by simp [loopPing, h]
  unfold loop
  rw [hp]
  refine (((loopServices_extends d _ env).mono ?_).trans ((loopJobs_extends _).mono ?_)).trans
    (((loopSceneSwitch_extends _).trans (loopScene_extends _ env)).mono ?_)
  · intro e he; simp [Ev.notPing, isServiceSide_not_ping e he]
  · intro e he; simp [Ev.notPing, isJobSide_not_ping e he]
  · intro e he; simp [Ev.notPing, isSceneSide_not_ping e he]

theorem step_confirmed (d : Decls) (s : ApplicationClass) (c : Call) (h : s._espOK = true) :
    (step d s c)._espOK = true ∧ Extends Ev.notPing s (step d s c) := by
  cases c with
  | loop env => exact ⟨loop_espOK d s env h, loop_extends_notPing d s env h⟩
  | pushScene scene cancelModal =>
    exact ⟨by simp [step, pushScene_fields, h], pushScene_extends _ d s scene cancelModal⟩
  | pushJob job => exact ⟨h, Extends.refl _ s⟩
  | runTask header data dataSize out =>
    exact ⟨runTask_espOK d s header data dataSize out h, runTask_extends d s header data dataSize out⟩

theorem run_confirmed (d : Decls) :
    ∀ (calls : List Call) (s : ApplicationClass), s._espOK = true →
      (run d s calls)._espOK = true ∧ Extends Ev.notPing s (run d s calls) := by
  intro calls
  induction calls with
  | nil => intro s h; exact ⟨h, Extends.refl _ s⟩
  | cons c cs ih =>
    intro s h
    have h1 := step_confirmed d s c h
    have h2 := ih (step d s c) h1.1
    exact ⟨h2.1, h1.2.trans h2.2⟩

/-! ## C6: Confirmed is terminal -/

/-- C6: from a state whose liveness flag `_espOK` is set, after any sequence
of `loop` passes, dispatched frames, `pushScene` and `pushJob` calls the flag
is still set, and none of the calls logged during the sequence is a `Ping`
request. -/
theorem confirmed_is_terminal (d : Decls) (s : ApplicationClass) (calls : List Call)
    (h : s._espOK = true) :
    (run d s calls)._espOK = true ∧
    ∀ e ∈ emitted s (run d s calls), e.isPingRequest = false := by
  obtain ⟨h1, evs, htr, hev⟩ := run_confirmed d calls s h
  refine ⟨h1, ?_⟩
  rw [emitted_append s _ evs htr]
  intro e he
  simpa [Ev.notPing] using hev e he

/-- Witness of C6: after a `Ping` request has confirmed the peer, ticks far
apart in time and an error response to `Ping` leave the flag set and send no
ping. -/
theorem confirmed_is_terminal_witness :
    (run sampleDecls { ApplicationClass.new [] with _espOK := true }
        [.loop (quietTick 6000), .runTask { pingRequest with commType := .ResponseError }
          (bufferOf []) 0 (sampleOut true true), .loop (quietTick 20000)])._espOK = true ∧
    ∀ e ∈ emitted { ApplicationClass.new [] with _espOK := true }
        (run sampleDecls { ApplicationClass.new [] with _espOK := true }
          [.loop (quietTick 6000), .runTask { pingRequest with commType := .ResponseError }
            (bufferOf []) 0 (sampleOut true true), .loop (quietTick 20000)]),
      e.isPingRequest = false :=
  confirmed_is_terminal sampleDecls { ApplicationClass.new [] with _espOK := true } _ rfl

theorem handleTouches_lastPing (s : ApplicationClass) (env : Tick) :
    (handleTouches s env)._lastESPPing = s._lastESPPing := by
  unfold handleTouches
  dsimp only
  repeat' split
  all_goals simp [ApplicationClass.emit]

theorem loop_lastPing (d : Decls) (s : ApplicationClass) (env : Tick) :
    (loop d s env)._lastESPPing = (loopPing d s env)._lastESPPing := by
  have h1 : ∀ t, (loopScene t env)._lastESPPing = t._lastESPPing := by
    intro t
    unfold loopScene
    cases hc : t._currentScene with
    | none => rfl
    | some sc =>
      dsimp only
      split_ifs <;> simp [ApplicationClass.emit, handleTouches_lastPing]
  have h2 : ∀ t, (loopSceneSwitch t)._lastESPPing = t._lastESPPing := by
    intro t
    unfold loopSceneSwitch
    cases hn : t._nextScene <;> cases hc : t._currentScene <;> simp [ApplicationClass.emit, hc]
  have h3 : ∀ t, (loopJobs t)._lastESPPing = t._lastESPPing := by
    intro t
    unfold loopJobs
    cases hn : t._nextJob <;> cases hc : t._currentJob <;> simp [ApplicationClass.emit, hc]
  unfold loop
  rw [h1, h2, h3, loopServices_lastPing]

theorem step_unconfirmed (d : Decls) (s : ApplicationClass) (c : Call)
    (hc : c.isConfirmingPing = false) : (step d s c)._espOK = s._espOK := by
  cases c with
  | loop env =>
    refine loop_espOK_kept d s env (fun f hf => ?_)
    simp only [Call.isConfirmingPing, List.any_eq_false] at hc
    simpa using hc f hf
  | pushScene scene cancelModal => exact (pushScene_fields d s scene cancelModal).2.2.2.1
  | pushJob job => rfl
  | runTask header data dataSize out => exact runTask_espOK_kept d s header data dataSize out hc

theorem run_unconfirmed (d : Decls) :
    ∀ (calls : List Call) (s : ApplicationClass),
      (∀ c ∈ calls, c.isConfirmingPing = false) → (run d s calls)._espOK = s._espOK := by
  intro calls
  induction calls with
  | nil => intro s _; rfl
  | cons c cs ih =>
    intro s h
    show (run d (step d s c) cs)._espOK = s._espOK
    rw [ih _ (fun x hx => h x (List.mem_cons_of_mem _ hx)),
      step_unconfirmed d s c (h c (List.mem_cons_self _ _))]

theorem loop_ping_due (d : Decls) (s : ApplicationClass) (env : Tick) (h : s._espOK = false)
    (hdue : subUL env.millisCheck s._lastESPPing > 5000) :
    (emitted s (loop d s env)).filter Ev.isPingRequest =
        [.requestTask .Ping sizeofInt (intBytes d.FIRMWARE_BUILDNR)] ∧
    (loop d s env)._lastESPPing = env.millisStamp := by
  have hp : loopPing d s env = { pingESP d s with _lastESPPing := env.millisStamp } := by
    simp [loopPing, h, hdue]
  refine ⟨?_, ?_⟩
  · apply emitted_filter Ev.isPingRequest _ (loop_extends d s env)
    rw [loop_pings, hp]
    simp [pingESP, ApplicationClass.emit, Ev.isPingRequest]
  · rw [loop_lastPing, hp]

/-! ## C5: no confirmation, pings go on -/

/-- C5, as stated, fails: a run that receives no `Ping` response at all, only
a `Ping` request from the peer, ends with the liveness flag set. -/
theorem ping_request_confirms_without_response :
    (∀ c ∈ [Call.runTask pingRequest (bufferOf (intBytes 7)) 4 (sampleOut true true)],
      c.isPingResponse = false) ∧
    (ApplicationClass.new [])._espOK = false ∧
    (run sampleDecls (ApplicationClass.new [])
      [Call.runTask pingRequest (bufferOf (intBytes 7)) 4 (sampleOut true true)])._espOK = true := by
  refine ⟨by simp [Call.isPingResponse, pingRequest], rfl, by decide⟩

/-- C5 amended: from an unconfirmed state, in every run in which no `Ping`
frame of kind `ResponseSuccess` and no `Ping` frame of kind `Request` is
dispatched (on its own or among the frames handed over during a tick), the
liveness flag `_espOK` is unset after the run (hence after every step of
it), and a pass of `loop` that then finds more than 5000 ms elapsed since
`_lastESPPing` sends exactly one `Ping` request carrying `FIRMWARE_BUILDNR`
and stores the time read after sending in `_lastESPPing`; the flag is still
unset after that pass when no such `Ping` frame arrives during it. -/
theorem unconfirmed_keeps_pinging (d : Decls) (s : ApplicationClass) (calls : List Call)
    (h : s._espOK = false) (hno : ∀ c ∈ calls, c.isConfirmingPing = false) :
    (run d s calls)._espOK = false ∧
    ∀ env : Tick, subUL env.millisCheck (run d s calls)._lastESPPing > 5000 →
      (emitted (run d s calls) (loop d (run d s calls) env)).filter Ev.isPingRequest =
          [.requestTask .Ping sizeofInt (intBytes d.FIRMWARE_BUILDNR)] ∧
      (loop d (run d s calls) env)._lastESPPing = env.millisStamp ∧
      ((∀ f ∈ env.inbound, f.isConfirmingPing = false) →
        (loop d (run d s calls) env)._espOK = false) := by
  have h1 : (run d s calls)._espOK = false := by rw [run_unconfirmed d calls s hno, h]
  refine ⟨h1, fun env hdue => ?_⟩
  have h2 := loop_ping_due d (run d s calls) env h1 hdue
  exact ⟨h2.1, h2.2, fun hf => by rw [loop_espOK_kept d _ env hf, h1]⟩

/-- Witness of the amended C5: after a first tick at 6000 ms that hands over
an error response to `Ping`, and a second error response looked at on its
own, the flag is unset and the tick at 12000 ms pings again. -/
theorem unconfirmed_keeps_pinging_witness :
    (run sampleDecls (ApplicationClass.new [])
      [.loop (frameTick 6000
          [{ sampleFrame .Ping [] with header := { pingRequest with commType := .ResponseError } }]),
        .runTask { pingRequest with commType := .ResponseError }
        (bufferOf []) 0 (sampleOut true true)])._espOK = false ∧
    (emitted
        (run sampleDecls (ApplicationClass.new [])
          [.loop (frameTick 6000
              [{ sampleFrame .Ping [] with
                  header := { pingRequest with commType := .ResponseError } }]),
            .runTask { pingRequest with commType := .ResponseError }
            (bufferOf []) 0 (sampleOut true true)])
        (loop sampleDecls
          (run sampleDecls (ApplicationClass.new [])
            [.loop (frameTick 6000
                [{ sampleFrame .Ping [] with
                    header := { pingRequest with commType := .ResponseError } }]),
              .runTask { pingRequest with commType := .ResponseError }
              (bufferOf []) 0 (sampleOut true true)])
          (quietTick 12000))).filter Ev.isPingRequest =
      [.requestTask .Ping sizeofInt (intBytes sampleDecls.FIRMWARE_BUILDNR)] :=
  ⟨(unconfirmed_keeps_pinging sampleDecls (ApplicationClass.new []) _ rfl
      (by simp [Call.isConfirmingPing, Frame.isConfirmingPing, pingRequest, frameTick,
        CommHeader.getCurrentTask])).1,
   ((unconfirmed_keeps_pinging sampleDecls (ApplicationClass.new []) _ rfl
      (by simp [Call.isConfirmingPing, Frame.isConfirmingPing, pingRequest, frameTick,
        CommHeader.getCurrentTask])).2 (quietTick 12000) (by decide)).1⟩

/-! ## C7: answering a `Ping` request -/

/-- C7, as stated, fails in two ways.  With a current scene that claims
`Ping`, the request is handed to the scene: the flag stays unset and the
scene decides on the response.  Without scene and job, the built-in handler
does not assign `success`: a caller that passes `success = false` reads
`success = false` on return. -/
theorem ping_request_reply_fails :
    (sampleBusy._espOK = false ∧
      (runTask sampleDecls sampleBusy pingRequest (bufferOf (intBytes 7)) 4
        (sampleOut true true)).app._espOK = false ∧
      (runTask sampleDecls sampleBusy pingRequest (bufferOf (intBytes 7)) 4
        (sampleOut true true)).out.sendResponse = false) ∧
    ((ApplicationClass.new [])._espOK = false ∧
      (runTask sampleDecls (ApplicationClass.new []) pingRequest (bufferOf (intBytes 7)) 4
        (sampleOut false false)).out.success = false) := by
  refine ⟨⟨rfl, by decide, by decide⟩, rfl, by decide⟩

/-- C7 amended: when neither the current scene nor the current job claims
`Ping`, a `Ping` frame of kind `Request` makes `runTask` set
`sendResponse = true` and `responseDataSize = sizeof(int)`, write the bytes
of `FIRMWARE_BUILDNR` to the start of the response buffer, and set the
liveness flag; it calls no collaborator and returns `true`.  `success` is
left as the caller passed it, so the reply is a `ResponseSuccess` when the
caller passed `success = true`. -/
theorem ping_request_reply (d : Decls) (s : ApplicationClass) (header : CommHeader)
    (data : Nat → Nat) (dataSize : Nat) (out : Out)
    (htask : header.getCurrentTask = .Ping) (hreq : header.commType = .Request)
    (hs : sceneClaims d s .Ping = false) (hj : jobClaims d s .Ping = false) :
    (runTask d s header data dataSize out).out.sendResponse = true ∧
    (runTask d s header data dataSize out).out.responseDataSize = sizeofInt ∧
    (List.range (runTask d s header data dataSize out).out.responseDataSize).map
        (runTask d s header data dataSize out).out.responseData = intBytes d.FIRMWARE_BUILDNR ∧
    (runTask d s header data dataSize out).out.success = out.success ∧
    (runTask d s header data dataSize out).app = { s with _espOK := true } ∧
    (runTask d s header data dataSize out).ret = true := by
  have hr : runTask d s header data dataSize out =
      { app := { s with _espOK := true }
        out := { out with sendResponse := true, responseDataSize := sizeofInt,
                          responseData := memcpy out.responseData (intBytes d.FIRMWARE_BUILDNR) }
        ret := true } := by
    unfold runTask
    rw [htask, filter_claims_scene hs, filter_claims_job hj]
    simp [hreq]
  rw [hr]
  refine ⟨rfl, rfl, ?_, rfl, rfl, rfl⟩
  simp [sizeofInt, memcpy, intBytes, List.range_succ]

/-- Witness of the amended C7 on the freshly constructed application. -/
theorem ping_request_reply_witness :
    (runTask sampleDecls (ApplicationClass.new []) pingRequest (bufferOf (intBytes 7)) 4
      (sampleOut false true)).out.sendResponse = true ∧
    (runTask sampleDecls (ApplicationClass.new []) pingRequest (bufferOf (intBytes 7)) 4
      (sampleOut false true)).out.success = true ∧
    (runTask sampleDecls (ApplicationClass.new []) pingRequest (bufferOf (intBytes 7)) 4
      (sampleOut false true)).app._espOK = true :=
  ⟨(ping_request_reply sampleDecls (ApplicationClass.new []) pingRequest (bufferOf (intBytes 7)) 4
      (sampleOut false true) rfl rfl rfl rfl).1,
   (ping_request_reply sampleDecls (ApplicationClass.new []) pingRequest (bufferOf (intBytes 7)) 4
      (sampleOut false true) rfl rfl rfl rfl).2.2.2.1,
   by rw [(ping_request_reply sampleDecls (ApplicationClass.new []) pingRequest
      (bufferOf (intBytes 7)) 4 (sampleOut false true) rfl rfl rfl rfl).2.2.2.2.1]⟩

/-! ## C8: modal scenes refuse a push -/

/-- What the frames of a tick add to C8: after an accepted `pushScene(Other 7)`
a tick that hands over a `DownloadError` request installs the error scene and
not the pushed scene; after a refused push with nothing pending a tick that
hands over `FirmwareUpdateComplete` replaces the modal scene. -/
theorem frame_in_tick_overrides_push :
    (loop sampleDecls (pushScene sampleDecls (ApplicationClass.new []) (.Other 7) false)
      (frameTick 0 [sampleFrame .DownloadError [2]]))._currentScene =
      some (.ErrorScene "File not found" none) ∧
    (loop sampleDecls
      (pushScene sampleDecls { sampleModal with _nextScene := none } (.Other 7) false)
      (frameTick 0 [sampleFrame .FirmwareUpdateComplete []]))._currentScene =
      some .ProjectsScene := by
  refine ⟨by decide, by decide⟩

/-- C9, as stated, fails: `GetJobWithID` has no branch in `runTask`, so with
no scene and no job the function returns without writing `sendResponse`; a
caller that passed `sendResponse = true` reads `true` on return. -/
theorem unhandled_task_keeps_sendResponse :
    TaskID.GetJobWithID.isBuiltin = false ∧
    sceneClaims sampleDecls (ApplicationClass.new []) .GetJobWithID = false ∧
    jobClaims sampleDecls (ApplicationClass.new []) .GetJobWithID = false ∧
    (runTask sampleDecls (ApplicationClass.new []) (requestFor .GetJobWithID) (bufferOf []) 0
      (sampleOut true true)).out.sendResponse = true := by
  refine ⟨rfl, rfl, rfl, by decide⟩

/-- C9 amended: for a frame whose task kind is claimed by neither the current
scene nor the current job and has no branch in the built-in chain, `runTask`
changes nothing: the application is as before (no scene and no job queued,
no reset of the peer, liveness flag unchanged, no collaborator called), the
out-parameters are as the caller passed them (so `sendResponse` is false on
return exactly when it was false on entry), and the function returns
`true`. -/
theorem unhandled_task_untouched (d : Decls) (s : ApplicationClass) (header : CommHeader)
    (data : Nat → Nat) (dataSize : Nat) (out : Out)
    (hb : header.getCurrentTask.isBuiltin = false)
    (hs : sceneClaims d s header.getCurrentTask = false)
    (hj : jobClaims d s header.getCurrentTask = false) :
    runTask d s header data dataSize out = { app := s, out := out, ret := true } ∧
    (runTask d s header data dataSize out).out.sendResponse = out.sendResponse ∧
    (runTask d s header data dataSize out).app._nextScene = s._nextScene ∧
    (runTask d s header data dataSize out).app._nextJob = s._nextJob ∧
    (runTask d s header data dataSize out).app._espOK = s._espOK ∧
    emitted s (runTask d s header data dataSize out).app = [] := by
  have hr : runTask d s header data dataSize out = { app := s, out := out, ret := true } := by
    unfold runTask
    rw [filter_claims_scene hs, filter_claims_job hj]
    cases ht : header.getCurrentTask <;> simp [ht, TaskID.isBuiltin] at hb ⊢
  rw [hr]
  exact ⟨rfl, rfl, rfl, rfl, rfl, by simp [emitted]⟩

/-- Witness of the amended C9: a `GetJobWithID` request passed with
`sendResponse = false` changes nothing and returns it false. -/
theorem unhandled_task_untouched_witness :
    (runTask sampleDecls (ApplicationClass.new []) (requestFor .GetJobWithID) (bufferOf []) 0
      (sampleOut false true)).out.sendResponse = false ∧
    emitted (ApplicationClass.new [])
      (runTask sampleDecls (ApplicationClass.new []) (requestFor .GetJobWithID) (bufferOf []) 0
        (sampleOut false true)).app = [] :=
  ⟨(unhandled_task_untouched sampleDecls (ApplicationClass.new []) (requestFor .GetJobWithID)
      (bufferOf []) 0 (sampleOut false true) rfl rfl rfl).2.1,
   (unhandled_task_untouched sampleDecls (ApplicationClass.new []) (requestFor .GetJobWithID)
      (bufferOf []) 0 (sampleOut false true) rfl rfl rfl).2.2.2.2.2⟩

/-! ## C10: payloads that fail to decode -/

/-- C10: a `SaveProjectWithID` or `FileOpenForWrite` request that reaches the
built-in handler and whose payload the codec fails to decode is dropped
without a response: on return `sendResponse` is false and the application,
with its pending scene, its pending job and the files on the SD card, is as
before; in particular no file was removed and no collaborator was called. -/
theorem decode_failure_drops_request (d : Decls) (s : ApplicationClass) (header : CommHeader)
    (data : Nat → Nat) (dataSize : Nat) (out : Out)
    (htask : header.getCurrentTask = .SaveProjectWithID ∨
      header.getCurrentTask = .FileOpenForWrite)
    (hreq : header.commType = .Request)
    (hfail : (d.parseObject data).success = false)
    (hs : sceneClaims d s header.getCurrentTask = false)
    (hj : jobClaims d s header.getCurrentTask = false) :
    (runTask d s header data dataSize out).out.sendResponse = false ∧
    (runTask d s header data dataSize out).app = s ∧
    (runTask d s header data dataSize out).app._nextScene = s._nextScene ∧
    (runTask d s header data dataSize out).app._nextJob = s._nextJob ∧
    (runTask d s header data dataSize out).app.sdFiles = s.sdFiles ∧
    (∀ e ∈ emitted s (runTask d s header data dataSize out).app, ∀ path, e ≠ .sdRemove path) := by
  have hr : runTask d s header data dataSize out =
      { app := s, out := { out with sendResponse := false }, ret := true } := by
    unfold runTask
    rw [filter_claims_scene hs, filter_claims_job hj]
    rcases htask with ht | ht <;> simp [ht, hreq, hfail]
  rw [hr]
  exact ⟨rfl, rfl, rfl, rfl, rfl, by simp [emitted]⟩

/-- Witness of C10: the sample codec rejects a payload that does not start
with an opening brace; both requests are dropped with `sendResponse` reset
from `true` to `false`. -/
theorem decode_failure_drops_request_witness :
    (runTask sampleDecls (ApplicationClass.new ["/projects/item"]) (requestFor .SaveProjectWithID)
      (bufferOf [1, 2]) 2 (sampleOut true true)).out.sendResponse = false ∧
    (runTask sampleDecls (ApplicationClass.new ["/projects/item"]) (requestFor .SaveProjectWithID)
      (bufferOf [1, 2]) 2 (sampleOut true true)).app = ApplicationClass.new ["/projects/item"] ∧
    (runTask sampleDecls (ApplicationClass.new ["item"]) (requestFor .FileOpenForWrite)
      (bufferOf [1, 2]) 2 (sampleOut true true)).out.sendResponse = false ∧
    (runTask sampleDecls (ApplicationClass.new ["item"]) (requestFor .FileOpenForWrite)
      (bufferOf [1, 2]) 2 (sampleOut true true)).app._nextJob = none :=
  ⟨(decode_failure_drops_request sampleDecls (ApplicationClass.new ["/projects/item"])
      (requestFor .SaveProjectWithID) (bufferOf [1, 2]) 2 (sampleOut true true) (Or.inl rfl) rfl
      (by decide) rfl rfl).1,
   (decode_failure_drops_request sampleDecls (ApplicationClass.new ["/projects/item"])
      (requestFor .SaveProjectWithID) (bufferOf [1, 2]) 2 (sampleOut true true) (Or.inl rfl) rfl
      (by decide) rfl rfl).2.1,
   (decode_failure_drops_request sampleDecls (ApplicationClass.new ["item"])
      (requestFor .FileOpenForWrite) (bufferOf [1, 2]) 2 (sampleOut true true) (Or.inr rfl) rfl
      (by decide) rfl rfl).1,
   (decode_failure_drops_request sampleDecls (ApplicationClass.new ["item"])
      (requestFor .FileOpenForWrite) (bufferOf [1, 2]) 2 (sampleOut true true) (Or.inr rfl) rfl
      (by decide) rfl rfl).2.2.2.1⟩

/-! ## C11: download errors -/

theorem downloadErrorScene_code (d : Decls) (hcodes : Function.Injective d.downloadErrorCode)
    (kind : DownloadError) :
    downloadErrorScene d (d.downloadErrorCode kind) =
      some (.ErrorScene (downloadErrorMessage kind) none) := by
  cases kind <;> simp [downloadErrorScene, downloadErrorMessage, hcodes.eq_iff]

theorem downloadErrorMessage_injective : Function.Injective downloadErrorMessage := by
  intro a b h
  cases a <;> cases b <;> first | rfl | (simp [downloadErrorMessage] at h)

/-- C11: a `DownloadError` request that reaches the built-in handler and whose
first payload byte is the code of a `DownloadError` enumerator (the
enumerators having pairwise distinct codes) makes the handler do exactly one
thing: one `pushScene` of an `ErrorScene` whose message depends on the kind
only; the pushed scene becomes the pending scene unless a modal current scene
refuses the push.  The eight messages are pairwise different, and on return
`sendResponse` is false. -/
theorem downloadError_pushes_message (d : Decls) (s : ApplicationClass) (header : CommHeader)
    (data : Nat → Nat) (dataSize : Nat) (out : Out) (kind : DownloadError)
    (htask : header.getCurrentTask = .DownloadError) (hreq : header.commType = .Request)
    (hcodes : Function.Injective d.downloadErrorCode)
    (hbyte : data 0 % 256 = d.downloadErrorCode kind)
    (hs : sceneClaims d s header.getCurrentTask = false)
    (hj : jobClaims d s header.getCurrentTask = false) :
    (runTask d s header data dataSize out).app =
      pushScene d s (.ErrorScene (downloadErrorMessage kind) none) d.cancelModalDefault ∧
    ((∀ cur, s._currentScene = some cur → d.isModal cur = false ∨ d.cancelModalDefault = true) →
      (runTask d s header data dataSize out).app._nextScene =
        some (.ErrorScene (downloadErrorMessage kind) none)) ∧
    Function.Injective downloadErrorMessage ∧
    (runTask d s header data dataSize out).out.sendResponse = false ∧
    emitted s (runTask d s header data dataSize out).app = [] := by
  have hr : runTask d s header data dataSize out =
      { app := pushScene d s (.ErrorScene (downloadErrorMessage kind) none) d.cancelModalDefault
        out := { out with sendResponse := false }, ret := true } := by
    unfold runTask
    rw [filter_claims_scene hs, filter_claims_job hj]
    simp [htask, hreq, hbyte, downloadErrorScene_code d hcodes kind]
  rw [hr]
  refine ⟨rfl, ?_, downloadErrorMessage_injective, rfl, by simp [emitted, pushScene_trace]⟩
  intro hmod
  show (pushScene d s _ d.cancelModalDefault)._nextScene = _
  unfold pushScene
  cases hc : s._currentScene with
  | none => rfl
  | some cur =>
    rcases hmod cur hc with h | h <;> simp [h]

theorem sampleDecls_codes_injective : Function.Injective sampleDecls.downloadErrorCode := by
  intro a b h
  cases a <;> cases b <;> first | rfl | (simp [sampleDecls] at h)

/-- Witness of C11: the byte 2 is the code of `FileNotFound` in the sample
declarations; the pending scene becomes the error scene "File not found". -/
theorem downloadError_pushes_message_witness :
    (runTask sampleDecls (ApplicationClass.new []) (requestFor .DownloadError) (bufferOf [2]) 1
      (sampleOut true true)).app._nextScene = some (.ErrorScene "File not found" none) ∧
    (runTask sampleDecls (ApplicationClass.new []) (requestFor .DownloadError) (bufferOf [2]) 1
      (sampleOut true true)).out.sendResponse = false :=
  ⟨(downloadError_pushes_message sampleDecls (ApplicationClass.new [])
      (requestFor .DownloadError) (bufferOf [2]) 1 (sampleOut true true) .FileNotFound rfl rfl
      sampleDecls_codes_injective (by decide) rfl rfl).2.1 (fun _ h => by simp [ApplicationClass.new] at h),
   (downloadError_pushes_message sampleDecls (ApplicationClass.new [])
      (requestFor .DownloadError) (bufferOf [2]) 1 (sampleOut true true) .FileNotFound rfl rfl
      sampleDecls_codes_injective (by decide) rfl rfl).2.2.2.1⟩

/-! ## C12: firmware update errors -/

/-- C12, as stated, fails: in the sample declarations `UnknownError` has code
0; a `FirmwareUpdateError` request carrying the code 2 reaches the built-in
handler, which pushes no scene and calls nothing. -/
theorem firmwareUpdateError_other_code_no_message :
    bufferOf [2] 0 % 256 ≠ sampleDecls.firmwareUnknownErrorCode ∧
    (runTask sampleDecls (ApplicationClass.new []) (requestFor .FirmwareUpdateError)
      (bufferOf [2]) 1 (sampleOut true true)).app._nextScene = none ∧
    (runTask sampleDecls (ApplicationClass.new []) (requestFor .FirmwareUpdateError)
      (bufferOf [2]) 1 (sampleOut true true)).app.trace = [] := by
  refine ⟨by decide, by decide, by decide⟩

/-- C12 amended: a `FirmwareUpdateError` request that reaches the built-in
handler sends no response.  When its payload byte is the code of
`UnknownError` the handler does one `pushScene` of the error scene
"Unknown Error" and nothing else; for every other code it pushes no scene and
leaves the application exactly as it was. -/
theorem firmwareUpdateError_rule (d : Decls) (s : ApplicationClass) (header : CommHeader)
    (data : Nat → Nat) (dataSize : Nat) (out : Out)
    (htask : header.getCurrentTask = .FirmwareUpdateError) (hreq : header.commType = .Request)
    (hs : sceneClaims d s header.getCurrentTask = false)
    (hj : jobClaims d s header.getCurrentTask = false) :
    (data 0 % 256 = d.firmwareUnknownErrorCode →
      (runTask d s header data dataSize out).app =
        pushScene d s (.ErrorScene "Unknown Error" none) d.cancelModalDefault) ∧
    (data 0 % 256 ≠ d.firmwareUnknownErrorCode →
      (runTask d s header data dataSize out).app = s) ∧
    (runTask d s header data dataSize out).out.sendResponse = false ∧
    emitted s (runTask d s header data dataSize out).app = [] := by
  have hr : runTask d s header data dataSize out =
      { app := if data 0 % 256 = d.firmwareUnknownErrorCode then
          pushScene d s (.ErrorScene "Unknown Error" none) d.cancelModalDefault else s
        out := { out with sendResponse := false }, ret := true } := by
    unfold runTask
    rw [filter_claims_scene hs, filter_claims_job hj]
    simp [htask, hreq]
  rw [hr]
  refine ⟨fun h => by simp [h], fun h => by simp [h], rfl, ?_⟩
  split_ifs <;> simp [emitted, pushScene_trace]

/-- Witness of the amended C12, for the code of `UnknownError` and for
another code. -/
theorem firmwareUpdateError_rule_witness :
    (runTask sampleDecls (ApplicationClass.new []) (requestFor .FirmwareUpdateError)
      (bufferOf [0]) 1 (sampleOut true true)).app =
        pushScene sampleDecls (ApplicationClass.new []) (.ErrorScene "Unknown Error" none)
          sampleDecls.cancelModalDefault ∧
    (runTask sampleDecls (ApplicationClass.new []) (requestFor .FirmwareUpdateError)
      (bufferOf [2]) 1 (sampleOut true true)).app = ApplicationClass.new [] :=
  ⟨(firmwareUpdateError_rule sampleDecls (ApplicationClass.new [])
      (requestFor .FirmwareUpdateError) (bufferOf [0]) 1 (sampleOut true true) rfl rfl rfl
      rfl).1 (by decide),
   (firmwareUpdateError_rule sampleDecls (ApplicationClass.new [])
      (requestFor .FirmwareUpdateError) (bufferOf [2]) 1 (sampleOut true true) rfl rfl rfl
      rfl).2.1 (by decide)⟩

/-! ## C13: firmware update complete -/

/-- C13: a `FirmwareUpdateComplete` frame that reaches the built-in handler,
whatever its `commType` and payload and whatever the state, makes the handler
run the reset sequence of the peer exactly once (these are the only calls it
makes), set the pending scene to `ProjectsScene` even when the current scene
is modal, and return with `sendResponse` false. -/
theorem firmwareUpdateComplete_resets_peer (d : Decls) (s : ApplicationClass)
    (header : CommHeader) (data : Nat → Nat) (dataSize : Nat) (out : Out)
    (htask : header.getCurrentTask = .FirmwareUpdateComplete)
    (hs : sceneClaims d s header.getCurrentTask = false)
    (hj : jobClaims d s header.getCurrentTask = false) :
    emitted s (runTask d s header data dataSize out).app = resetSequence ∧
    (runTask d s header data dataSize out).app._nextScene = some .ProjectsScene ∧
    (runTask d s header data dataSize out).app._currentScene = s._currentScene ∧
    (runTask d s header data dataSize out).out.sendResponse = false := by
  have hr : runTask d s header data dataSize out =
      { app := pushScene d (resetESP s) .ProjectsScene true
        out := { out with sendResponse := false }, ret := true } := by
    unfold runTask
    rw [filter_claims_scene hs, filter_claims_job hj]
    simp [htask]
  rw [hr]
  refine ⟨?_, ?_, ?_, rfl⟩
  · apply emitted_append
    show (pushScene d (resetESP s) .ProjectsScene true).trace = _
    rw [pushScene_trace, resetESP_trace]
    rfl
  · show (pushScene d (resetESP s) .ProjectsScene true)._nextScene = _
    unfold pushScene
    split <;> simp
  · show (pushScene d (resetESP s) .ProjectsScene true)._currentScene = _
    rw [(pushScene_fields d _ _ _).2.2.1]
    rfl

/-- Witness of C13 on a state whose current scene `Other 9` is modal. -/
theorem firmwareUpdateComplete_resets_peer_witness :
    sampleDecls.isModal (.Other 9) = true ∧
    emitted { sampleModal with _nextScene := none }
      (runTask sampleDecls { sampleModal with _nextScene := none }
        (requestFor .FirmwareUpdateComplete) (bufferOf []) 0 (sampleOut true true)).app =
      resetSequence ∧
    (runTask sampleDecls { sampleModal with _nextScene := none }
      (requestFor .FirmwareUpdateComplete) (bufferOf []) 0 (sampleOut true true)).app._nextScene =
      some .ProjectsScene :=
  ⟨by decide,
   (firmwareUpdateComplete_resets_peer sampleDecls { sampleModal with _nextScene := none }
      (requestFor .FirmwareUpdateComplete) (bufferOf []) 0 (sampleOut true true) rfl rfl rfl).1,
   (firmwareUpdateComplete_resets_peer sampleDecls { sampleModal with _nextScene := none }
      (requestFor .FirmwareUpdateComplete) (bufferOf []) 0 (sampleOut true true) rfl rfl
      rfl).2.1⟩

/-! ## C15: `FileOpenForWrite` -/

/-- C15, evaluated on the code: the sample payload decodes to the path
"item".  When the file exists, the handler queues the `ReceiveSDCardFile` job
and sets `success`, but `sendResponse` is false on return; when it does not
exist, `success` is false, no job is queued and `sendResponse` is again false
on return. -/
theorem fileOpenForWrite_response_overridden :
    ((sampleDecls.parseObject (bufferOf [123])).success = true ∧
      (sampleDecls.parseObject (bufferOf [123])).str "localFilePath" = "item") ∧
    ((runTask sampleDecls (ApplicationClass.new ["item"]) (requestFor .FileOpenForWrite)
        (bufferOf [123]) 1 (sampleOut true true)).out.sendResponse = false ∧
      (runTask sampleDecls (ApplicationClass.new ["item"]) (requestFor .FileOpenForWrite)
        (bufferOf [123]) 1 (sampleOut true true)).out.success = true ∧
      (runTask sampleDecls (ApplicationClass.new ["item"]) (requestFor .FileOpenForWrite)
        (bufferOf [123]) 1 (sampleOut true true)).app._nextJob =
        some (.ReceiveSDCardFile "item" 1000)) ∧
    ((runTask sampleDecls (ApplicationClass.new []) (requestFor .FileOpenForWrite)
        (bufferOf [123]) 1 (sampleOut true true)).out.sendResponse = false ∧
      (runTask sampleDecls (ApplicationClass.new []) (requestFor .FileOpenForWrite)
        (bufferOf [123]) 1 (sampleOut true true)).out.success = false ∧
      (runTask sampleDecls (ApplicationClass.new []) (requestFor .FileOpenForWrite)
        (bufferOf [123]) 1 (sampleOut true true)).app._nextJob = none) := by
  refine ⟨⟨by decide, by decide⟩, ⟨by decide, by decide, by decide⟩, by decide, by decide,
    by decide⟩

theorem fileOpenForWrite_never_responds (d : Decls) (s : ApplicationClass)
    (header : CommHeader) (data : Nat → Nat) (dataSize : Nat) (out : Out)
    (htask : header.getCurrentTask = .FileOpenForWrite) (hreq : header.commType = .Request)
    (hs : sceneClaims d s header.getCurrentTask = false)
    (hj : jobClaims d s header.getCurrentTask = false) :
    (runTask d s header data dataSize out).out.sendResponse = false := by
  unfold runTask
  rw [filter_claims_scene hs, filter_claims_job hj]
  simp [htask, hreq]

/-! ## C16: the data-flow line around the display section -/

theorem handleTouches_touch (s : ApplicationClass) (env : Tick) :
    Extends Ev.isTouch s (handleTouches s env) := by
  unfold handleTouches
  dsimp only
  repeat' split
  all_goals simp [Extends, ApplicationClass.emit, Ev.isTouch]

theorem isTouch_not_flow (e : Ev) (h : e.isTouch = true) : e.isFlowControl = false := by
  cases e <;> simp_all [Ev.isTouch, Ev.isFlowControl]

theorem isService_not_flow (e : Ev) (h : e.isService = true) : e.isFlowControl = false := by
  cases e <;> simp_all [Ev.isService, Ev.isFlowControl]

theorem isPingRequest_not_flow (e : Ev) (h : e.isPingRequest = true) :
    e.isFlowControl = false := by
  cases e <;> simp_all [Ev.isPingRequest, Ev.isFlowControl]

theorem isJobSide_not_flow (e : Ev) (h : e.isJobSide = true) : e.isFlowControl = false := by
  cases e <;> simp_all [Ev.isJobSide, Ev.isFlowControl]

theorem handleTouches_flow (s : ApplicationClass) (env : Tick) :
    (handleTouches s env).trace.filter Ev.isFlowControl = s.trace.filter Ev.isFlowControl :=
  (handleTouches_touch s env).filter_eq isTouch_not_flow

theorem loopSceneSwitch_flow (s : ApplicationClass) :
    (loopSceneSwitch s).trace.filter Ev.isFlowControl = s.trace.filter Ev.isFlowControl := by
  unfold loopSceneSwitch
  cases hn : s._nextScene <;> cases hc : s._currentScene <;>
    simp [ApplicationClass.emit, hc, Ev.isFlowControl, List.filter_append, List.filter_cons]

theorem loopScene_flow (s : ApplicationClass) (env : Tick) :
    (loopScene s env).trace.filter Ev.isFlowControl =
      s.trace.filter Ev.isFlowControl ++ flowOrder s._currentScene env.willRefresh := by
  unfold loopScene
  cases hc : s._currentScene with
  | none => simp [flowOrder]
  | some sc =>
    dsimp only
    cases hw : env.willRefresh <;> cases hf : s._firstSceneLoop <;>
      simp [ApplicationClass.emit, handleTouches_fields, handleTouches_flow, hf, flowOrder,
        Ev.isFlowControl, List.filter_append, List.filter_cons]

theorem isTaskSide_not_flow (e : Ev) (h : e.isTaskSide = true) : e.isFlowControl = false := by
  cases e with
  | digitalWrite pin level => cases pin <;> simp_all [Ev.isTaskSide, Ev.isFlowControl]
  | _ => simp_all [Ev.isTaskSide, Ev.isFlowControl]

theorem isServiceSide_not_flow (e : Ev) (h : e.isServiceSide = true) :
    e.isFlowControl = false := by
  simp only [Ev.isServiceSide, Bool.or_eq_true] at h
  rcases h with h | h
  · exact isService_not_flow e h
  · exact isTaskSide_not_flow e h

theorem loop_flow (d : Decls) (s : ApplicationClass) (env : Tick) :
    (emitted s (loop d s env)).filter Ev.isFlowControl =
      flowOrder (loop d s env)._currentScene env.willRefresh := by
  apply emitted_filter Ev.isFlowControl _ (loop_extends d s env)
  unfold loop
  rw [loopScene_flow, loopSceneSwitch_flow,
    (loopJobs_extends _).filter_eq isJobSide_not_flow,
    (loopServices_extends d _ env).filter_eq isServiceSide_not_flow,
    (loopPing_extends d s env).filter_eq isPingRequest_not_flow,
    (loopScene_fields _ env).2.2.1]

/-- C16: in a tick that runs a scene (the scene that is current once the
pending scene, if any, has been installed) and in which the display reports a
pending refresh, the data-flow pin is written LOW, then `layoutIfNeeded` and
`dispatch` run, then the pin is written HIGH, and these are the only writes
of the pin in the tick; in a tick without a pending refresh or without a
scene the pin is not written.  So the last write of a tick, when there is
one, is never LOW. -/
theorem loop_dataflow_line (d : Decls) (s : ApplicationClass) (env : Tick) :
    (∀ scene, (loop d s env)._currentScene = some scene → env.willRefresh = true →
      (emitted s (loop d s env)).filter Ev.isFlowControl =
        [.digitalWrite .COMMSTACK_DATAFLOW_PIN .LOW, .displayLayoutIfNeeded, .displayDispatch,
         .digitalWrite .COMMSTACK_DATAFLOW_PIN .HIGH]) ∧
    (env.willRefresh = false ∨ (loop d s env)._currentScene = none →
      (emitted s (loop d s env)).filter Ev.isDataFlowWrite = []) ∧
    ((emitted s (loop d s env)).filter Ev.isDataFlowWrite).getLast? ≠
      some (.digitalWrite .COMMSTACK_DATAFLOW_PIN .LOW) := by
  have hf := loop_flow d s env
  have hsub : (emitted s (loop d s env)).filter Ev.isDataFlowWrite =
      (flowOrder (loop d s env)._currentScene env.willRefresh).filter Ev.isDataFlowWrite := by
    rw [← hf, List.filter_filter]
    congr 1
    funext e
    cases e <;> simp [Ev.isDataFlowWrite, Ev.isFlowControl]
    rename_i pin level
    cases pin <;> simp
  refine ⟨?_, ?_, ?_⟩
  · intro scene hc hw
    rw [hf, hc, hw]
    rfl
  · intro h
    rw [hsub]
    rcases h with h | h
    · rw [h]
      cases (loop d s env)._currentScene <;> simp [flowOrder, Ev.isDataFlowWrite]
    · rw [h]
      cases env.willRefresh <;> simp [flowOrder]
  · rw [hsub]
    cases (loop d s env)._currentScene <;> cases env.willRefresh <;>
      simp [flowOrder, Ev.isDataFlowWrite]

/-- Witness of C16: a tick with a pending refresh installs and runs the
pending `ProjectsScene`; a tick without refresh on the same state writes
nothing to the pin. -/
theorem loop_dataflow_line_witness :
    (emitted sampleModal (loop sampleDecls sampleModal (refreshTick 0))).filter Ev.isFlowControl =
        [.digitalWrite .COMMSTACK_DATAFLOW_PIN .LOW, .displayLayoutIfNeeded, .displayDispatch,
         .digitalWrite .COMMSTACK_DATAFLOW_PIN .HIGH] ∧
    (emitted sampleModal (loop sampleDecls sampleModal (quietTick 0))).filter
        Ev.isDataFlowWrite = [] :=
  ⟨(loop_dataflow_line sampleDecls sampleModal (refreshTick 0)).1 .ProjectsScene (by decide) rfl,
   (loop_dataflow_line sampleDecls sampleModal (quietTick 0)).2.1 (Or.inl rfl)⟩

/-! ## C14: stop-and-wait in the push role -/

theorem subUL_of_le (a b : Nat) (hb : b ≤ a) (ha : a < 4294967296) : subUL a b = a - b := by
  unfold subUL
  omega

theorem PushInv_start (bound fileSize : Nat) :
    PushInv bound fileSize (PushFileToSDCard.onWillStart (some fileSize)) := by
  simp [PushInv, PushFileToSDCard.onWillStart]

theorem PushInv_loop (bound fileSize : Nat) (hb : 0 < bound) (hsize : fileSize < 4294967296)
    (s : PushFileToSDCard) (h : PushInv bound fileSize s) :
    PushInv bound fileSize (s.loop bound) := by
  obtain ⟨h1, h2, h3, h4, h5, h6⟩ := h
  unfold PushFileToSDCard.loop
  split_ifs with hc hpos
  · obtain ⟨ho, hw⟩ := hc
    have hw' : s._waitForResponse = false := by simpa using hw
    have hle : min bound s._bytesLeft ≤ s._bytesLeft := Nat.min_le_right _ _
    have hlt : s._bytesLeft < 4294967296 := by omega
    refine ⟨?_, ?_, ?_, h4, ?_, ?_⟩
    · simp only [List.sum_append, List.sum_cons, List.sum_nil, subUL_of_le _ _ hle hlt]
      omega
    · intro c hcmem
      simp only [List.mem_append, List.mem_singleton] at hcmem
      rcases hcmem with hcm | hcm
      · exact h2 c hcm
      · subst hcm
        exact ⟨by omega, Nat.min_le_left _ _⟩
    · simp [hw'] at h3
      simp [h3]
    · intro _
      exact h5 ho
    · intro hcomp
      have := h5 ho
      simp only at hcomp
      omega
  · obtain ⟨ho, hw⟩ := hc
    have hw' : s._waitForResponse = false := by simpa using hw
    have h0 := h5 ho
    refine ⟨h1, h2, h3, ?_, ?_, ?_⟩
    · simp only
      omega
    · intro hf
      simp at hf
    · intro _
      exact ⟨by simp only; omega, hw'⟩
  · exact ⟨h1, h2, h3, h4, h5, h6⟩

theorem PushInv_runTask (bound fileSize : Nat) (s : PushFileToSDCard) (commType : CommType)
    (h : PushInv bound fileSize s) : PushInv bound fileSize (s.runTask commType) := by
  obtain ⟨h1, h2, h3, h4, h5, h6⟩ := h
  unfold PushFileToSDCard.runTask
  cases commType with
  | Request => exact ⟨h1, h2, h3, h4, h5, h6⟩
  | ResponseError =>
    refine ⟨h1, h2, h3, h4, ?_, h6⟩
    intro hf
    simp at hf
  | ResponseSuccess =>
    dsimp only
    split_ifs with hw
    · refine ⟨h1, h2, ?_, h4, h5, ?_⟩
      · simp [hw] at h3
        simp [h3]
      · intro hc
        exact ⟨(h6 hc).1, rfl⟩
    · exact ⟨h1, h2, h3, h4, h5, h6⟩

theorem PushInv_run (bound fileSize : Nat) (hb : 0 < bound) (hsize : fileSize < 4294967296) :
    ∀ (calls : List PushCall) (s : PushFileToSDCard), PushInv bound fileSize s →
      PushInv bound fileSize (s.run bound calls) := by
  intro calls
  induction calls with
  | nil => intro s h; exact h
  | cons c cs ih =>
    intro s h
    show PushInv bound fileSize ((s.step bound c).run bound cs)
    apply ih
    cases c with
    | loop => exact PushInv_loop bound fileSize hb hsize s h
    | runTask commType => exact PushInv_runTask bound fileSize s commType h

/-- C14: for a file of `fileSize` bytes (a `size_t`) and a positive payload
bound, after any sequence of ticks and responses of the push role: at most
one chunk is unacknowledged; `_bytesLeft` plus the chunks sent is the file
size, so `_bytesLeft` never wraps below zero; a tick that sends a chunk
leaves `_bytesLeft` strictly smaller and a response leaves it as it is;
completion is signalled at most once and then `_bytesLeft` is exactly 0.  A
1000-byte file with bound 256 goes out as the chunks 256, 256, 256, 232 when
each chunk is acknowledged, and ticks without acknowledgement send only the
first chunk. -/
theorem push_stop_and_wait (bound fileSize : Nat) (hb : 0 < bound)
    (hsize : fileSize < 4294967296) (calls : List PushCall) :
    ((PushFileToSDCard.onWillStart (some fileSize)).run bound calls).unacknowledged ≤ 1 ∧
    ((PushFileToSDCard.onWillStart (some fileSize)).run bound calls)._bytesLeft +
      ((PushFileToSDCard.onWillStart (some fileSize)).run bound calls).sent.sum = fileSize ∧
    (∀ c, (((PushFileToSDCard.onWillStart (some fileSize)).run bound calls).loop bound).sent =
        ((PushFileToSDCard.onWillStart (some fileSize)).run bound calls).sent ++ [c] →
      (((PushFileToSDCard.onWillStart (some fileSize)).run bound calls).loop bound)._bytesLeft <
        ((PushFileToSDCard.onWillStart (some fileSize)).run bound calls)._bytesLeft) ∧
    (∀ commType,
      (((PushFileToSDCard.onWillStart (some fileSize)).run bound calls).runTask
        commType)._bytesLeft =
        ((PushFileToSDCard.onWillStart (some fileSize)).run bound calls)._bytesLeft) ∧
    ((PushFileToSDCard.onWillStart (some fileSize)).run bound calls).completed ≤ 1 ∧
    (((PushFileToSDCard.onWillStart (some fileSize)).run bound calls).completed = 1 →
      ((PushFileToSDCard.onWillStart (some fileSize)).run bound calls)._bytesLeft = 0) ∧
    ((PushFileToSDCard.onWillStart (some 1000)).run 256 ackedSchedule).sent =
      [256, 256, 256, 232] ∧
    ((PushFileToSDCard.onWillStart (some 1000)).run 256 [.loop, .loop, .loop]).sent = [256] := by
  have hinv := PushInv_run bound fileSize hb hsize calls _ (PushInv_start bound fileSize)
  generalize (PushFileToSDCard.onWillStart (some fileSize)).run bound calls = s at hinv ⊢
  have hnext := PushInv_loop bound fileSize hb hsize s hinv
  obtain ⟨h1, h2, h3, h4, _, h6⟩ := hinv
  refine ⟨?_, h1, ?_, ?_, h4, fun hc => (h6 hc).1, by decide, by decide⟩
  · unfold PushFileToSDCard.unacknowledged
    split_ifs at h3 <;> omega
  · intro c hc
    have hsum := hnext.1
    have hpos := hnext.2.1 c (by rw [hc]; simp)
    rw [hc, List.sum_append] at hsum
    simp only [List.sum_cons, List.sum_nil] at hsum
    omega
  · intro commType
    unfold PushFileToSDCard.runTask
    cases commType <;> dsimp only
    split_ifs <;> rfl

/-- Witness of C14: the 1000-byte file with bound 256 on the acknowledged
schedule ends with nothing left, no chunk outstanding and one completion. -/
theorem push_stop_and_wait_witness :
    ((PushFileToSDCard.onWillStart (some 1000)).run 256 ackedSchedule).unacknowledged ≤ 1 ∧
    ((PushFileToSDCard.onWillStart (some 1000)).run 256 ackedSchedule)._bytesLeft = 0 ∧
    ((PushFileToSDCard.onWillStart (some 1000)).run 256 ackedSchedule).completed = 1 :=
  ⟨(push_stop_and_wait 256 1000 (by decide) (by decide) ackedSchedule).1,
   (push_stop_and_wait 256 1000 (by decide) (by decide) ackedSchedule).2.2.2.2.2.1 (by decide),
   by decide⟩

end Printrhub
